import Mathlib

/-!
Shallow embedding of the mx-connect resolution-and-connection pipeline
(`lib/resolve-mx.js`, `lib/tools.js`, `lib/dns-errors.js`, `lib/net-errors.js`,
`lib/dane.js`, `lib/get-connection.js`, `lib/mx-connect.js`) together with
proofs about candidate ordering, DNS error routing, DANE verification and
MX-hint normalization.

JavaScript values that may be `undefined`/`null` are modelled with `Option`;
buffers are modelled as byte lists; external primitives (the `net.isIPv4` /
`net.isIPv6` classifiers, the `ipaddr.js` based `isInvalid` range check and
the SHA-256 / SHA-512 hashes from `node:crypto`) are taken as parameters,
everything else is translated from the source.
-/

namespace MxConnect

/-- Bytes of a Node `Buffer` (hex strings are normalized to bytes on use). -/
abbrev Bytes := List Nat

/-- Model of a JavaScript `Error` object as used across the library.
`message` is always present; the other properties may be `undefined`
(modelled as `none`). -/
structure JsError where
  message : String := ""
  code : Option String := none
  errno : Option String := none
  category : Option String := none
  response : Option String := none
  temporary : Option Bool := none
  deriving Repr, DecidableEq

/-- `lib/dns-errors.js`: map from Node DNS error codes to human messages. -/
def dnsErrors : String → Option String
  | "ENODATA" => some "DNS server returned answer with no data"
  | "EFORMERR" => some "DNS server claims query was misformatted"
  | "ESERVFAIL" => some "DNS server returned general failure"
  | "ENOTFOUND" => some "Domain name not found"
  | "ENOTIMP" => some "DNS server does not implement requested operation"
  | "EREFUSED" => some "DNS server refused query"
  | "EBADQUERY" => some "Misformatted DNS query"
  | "EBADNAME" => some "Invalid hostname"
  | "EBADFAMILY" => some "Unsupported address family"
  | "EBADRESP" => some "Misformatted DNS reply"
  | "ECONNREFUSED" => some "Could not contact DNS servers"
  | "ETIMEOUT" => some "Timeout while contacting DNS servers"
  | "EOF" => some "End of file"
  | "EFILE" => some "Error reading file"
  | "ENOMEM" => some "Out of memory"
  | "EDESTRUCTION" => some "DNS channel is being destroyed"
  | "EBADSTR" => some "Invalid string"
  | "EBADFLAGS" => some "Invalid flags specified"
  | "ENONAME" => some "Given hostname is not numeric"
  | "EBADHINTS" => some "Invalid hints flags specified"
  | "ENOTINITIALIZED" => some "c-ares library initialization not yet performed"
  | "ELOADIPHLPAPI" => some "Error loading Windows iphlpapi.dll"
  | "EADDRGETNETWORKPARAMS" => some "Could not find GetNetworkParams function"
  | "ECANCELLED" => some "DNS query cancelled"
  | _ => none

/-- `lib/net-errors.js`: map from libuv/POSIX socket error codes to messages. -/
def netErrors : String → Option String
  | "EACCES" => some "Permission denied"
  | "EPERM" => some "Operation not permitted"
  | "EBADF" => some "Bad file descriptor"
  | "EADDRINUSE" => some "Address already in use"
  | "EADDRNOTAVAIL" => some "Address not available"
  | "EAFNOSUPPORT" => some "Address family not supported"
  | "EDESTADDRREQ" => some "Destination address required"
  | "ECONNREFUSED" => some "Connection refused"
  | "ECONNRESET" => some "Connection reset by peer"
  | "ECONNABORTED" => some "Connection aborted"
  | "ETIMEDOUT" => some "Connection timed out"
  | "EALREADY" => some "Connection already in progress"
  | "EINPROGRESS" => some "Operation in progress"
  | "EISCONN" => some "Socket is already connected"
  | "ENOTCONN" => some "Socket is not connected"
  | "ENETDOWN" => some "Network is down"
  | "ENETUNREACH" => some "Network is unreachable"
  | "ENETRESET" => some "Network dropped connection on reset"
  | "EHOSTUNREACH" => some "Host is unreachable"
  | "EHOSTDOWN" => some "Host is down"
  | "EPROTOTYPE" => some "Protocol wrong type for socket"
  | "ENOPROTOOPT" => some "Protocol not available"
  | "EPROTONOSUPPORT" => some "Protocol not supported"
  | "EPROTO" => some "Protocol error"
  | "ENOTSOCK" => some "Socket operation on non-socket"
  | "ESOCKTNOSUPPORT" => some "Socket type not supported"
  | "ENOTSUP" => some "Operation not supported on socket"
  | "EOPNOTSUPP" => some "Operation not supported on socket"
  | "EPFNOSUPPORT" => some "Protocol family not supported"
  | "ESHUTDOWN" => some "Cannot send after socket shutdown"
  | "ENOBUFS" => some "No buffer space available"
  | "EMSGSIZE" => some "Message too long"
  | "EPIPE" => some "Broken pipe"
  | "EIO" => some "I/O error"
  | "EREMOTEIO" => some "Remote I/O error"
  | "EAGAIN" => some "Resource temporarily unavailable"
  | "EWOULDBLOCK" => some "Resource temporarily unavailable"
  | "EINTR" => some "Interrupted system call"
  | "EINVAL" => some "Invalid argument"
  | "ETOOMANYREFS" => some "Too many references"
  | "ECANCELED" => some "Operation canceled"
  | _ => none

/-- `lib/tools.js` `isNotFoundError`: `err && (err.code === 'ENODATA' || err.code === 'ENOTFOUND')`. -/
def isNotFoundError (err : Option JsError) : Bool :=
  match err with
  | some e => e.code = some "ENODATA" || e.code = some "ENOTFOUND"
  | none => false

/-! ### `lib/resolve-mx.js` -/

/-- One MX resource record as returned by the DNS resolver. -/
structure MxRecord where
  exchange : String := ""
  priority : Int := 0
  deriving Repr, DecidableEq

/-- MTA-STS validation verdict attached to an MX entry (`validateMx` output). -/
structure PolicyMatch where
  valid : Bool := false
  testing : Option Bool := none
  mode : Option String := none
  deriving Repr, DecidableEq

/-- A TLSA record: `mtype`/`matchingType` and the association data may each be
absent; `cert`/`data` carry the (normalized-to-bytes) association data. -/
structure TlsaRecord where
  usage : Int := 0
  selector : Int := 0
  mtype : Option Int := none
  matchingType : Option Int := none
  cert : Option Bytes := none
  data : Option Bytes := none
  deriving Repr, DecidableEq

/-- An entry of `delivery.mx`. Fields that a given code path does not set are
`undefined` in JS and `none` here (e.g. the IP-literal branch of `resolveMX`
creates entries without an `mx` property). -/
structure MxEntry where
  exchange : Option String := none
  priority : Int := 0
  mx : Option Bool := none
  A : List String := []
  AAAA : List String := []
  policyMatch : Option PolicyMatch := none
  tlsaRecords : Option (List TlsaRecord) := none
  daneLookupFailed : Option Bool := none
  daneLookupError : Option JsError := none
  deriving Repr, DecidableEq

/-- `createDnsError(err, domain, defaultMessage)` from `lib/resolve-mx.js`. -/
def createDnsError (err : Option JsError) (domain : String) (defaultMessage : Option String) :
    JsError :=
  let base : JsError :=
    match err with
    | some e => e
    | none => { message := defaultMessage.getD "No MX server found" }
  let errorDescription := (base.code.bind dnsErrors).getD base.message
  let message :=
    s!"DNS error occurred while resolving the Mail Exchange (MX) server for the specified domain ({domain}). {errorDescription}"
  { base with
    message := message
    response := some ("DNS Error: " ++ message)
    code := some (base.code.getD "ENOTFOUND")
    category := some "dns"
    temporary := if err.isSome && !isNotFoundError err then some true else base.temporary }

/-- `isRecoverableError(err)`: `!err || tools.isNotFoundError(err)`. -/
def isRecoverableError (err : Option JsError) : Bool :=
  err.isNone || isNotFoundError err

/-- Outcome of one DNS query: either an error was thrown, or an answer that
may be `null` (`tryResolve` replaces a nullish answer by `[]`). -/
abbrev DnsAnswer (α : Type) := Except JsError (Option (List α))

/-- `tryResolve` from `lib/resolve-mx.js`: returns `{list, error}`. -/
def tryResolve {α : Type} (res : DnsAnswer α) : List α × Option JsError :=
  match res with
  | .ok l => (l.getD [], none)
  | .error e => ([], some e)

/-- The three answers the resolver can be asked for during `resolveMX`. -/
structure DnsOracle where
  mxQuery : DnsAnswer MxRecord := .ok none
  aQuery : DnsAnswer String := .ok none
  aaaaQuery : DnsAnswer String := .ok none

/-- Ordering used by `mxResult.list.slice().sort((a, b) => a.priority - b.priority)`:
the comparator is consistent, so the ES2019 stable sort is the stable
insertion sort by `priority`. -/
def mxRecordLE (a b : MxRecord) : Prop := a.priority ≤ b.priority

instance : DecidableRel mxRecordLE :=
  fun a b => inferInstanceAs (Decidable (a.priority ≤ b.priority))

instance : IsTotal MxRecord mxRecordLE := ⟨fun a b => Int.le_total a.priority b.priority⟩

instance : IsTrans MxRecord mxRecordLE := ⟨fun _ _ _ h h' => le_trans h h'⟩

/-- One step of the stateful `filterAddress` closure: state is
`(firstError, addressFound)`, the returned `Bool` is the filter verdict.
`isInvalid` is the external `tools.isInvalid` check (string verdict = invalid). -/
def filterAddressStep (isInvalid : String → Option String) (domain : String)
    (st : Option JsError × Bool) (ip : String) : (Option JsError × Bool) × Bool :=
  match isInvalid ip with
  | some invalidMsg =>
      let fe :=
        match st.1 with
        | some e => some e
        | none =>
            let msg :=
              s!"Unable to deliver email to the IP address [{ip}] resolved for the Mail Exchange (MX) server of \"{domain}\". {invalidMsg}"
            some ({ message := msg, response := some ("DNS Error: " ++ msg),
                    category := some "dns" } : JsError)
      ((fe, st.2), false)
  | none => ((st.1, true), true)

/-- The A-record fallback `aResult.list.map(entry => ({...}))`: each address
becomes one entry whose `A` is `[entry].filter(filterAddress)`; the
`filterAddress` state threads through the addresses in order. -/
def mapFallbackA (isInvalid : String → Option String) (displayDomain exch : String)
    (st : Option JsError × Bool) : List String → (Option JsError × Bool) × List MxEntry
  | [] => (st, [])
  | ip :: rest =>
    let fs := filterAddressStep isInvalid displayDomain st ip
    let next := mapFallbackA isInvalid displayDomain exch fs.1 rest
    (next.1, { exchange := some exch, priority := 0, mx := some false,
               A := if fs.2 then [ip] else [], AAAA := [] } :: next.2)

/-- The AAAA-record fallback, same shape with the address in `AAAA`. -/
def mapFallbackAAAA (isInvalid : String → Option String) (displayDomain exch : String)
    (st : Option JsError × Bool) : List String → (Option JsError × Bool) × List MxEntry
  | [] => (st, [])
  | ip :: rest =>
    let fs := filterAddressStep isInvalid displayDomain st ip
    let next := mapFallbackAAAA isInvalid displayDomain exch fs.1 rest
    (next.1, { exchange := some exch, priority := 0, mx := some false,
               A := [], AAAA := if fs.2 then [ip] else [] } :: next.2)

/-- Input slice of the delivery object consumed by `resolveMX`. -/
structure MxResolveInput where
  domain : String := ""
  decodedDomain : String := ""
  isIp : Bool := false
  ignoreIPv6 : Bool := false

/-- Step 3 of `resolveMX`: the AAAA-record fallback (only reached when the
MX and A answers were empty and their errors recoverable, in which case the
`filterAddress` state is still `(null, false)`). -/
def resolveMXFallbackAAAA (isInvalid : String → Option String) (inp : MxResolveInput)
    (oracle : DnsOracle) : Except JsError (List MxEntry) × List String :=
  let domain := inp.decodedDomain
  let ares := tryResolve oracle.aaaaQuery
  if !ares.1.isEmpty then
    let fres := mapFallbackAAAA isInvalid inp.domain domain (none, false) ares.1
    if !fres.1.2 && fres.1.1.isSome then
      ((match fres.1.1 with
        | some e => .error e
        | none => .ok fres.2), ["AAAA"])
    else (.ok fres.2, ["AAAA"])
  else if ares.2.isSome && !isRecoverableError ares.2 then
    (.error (createDnsError ares.2 domain none), ["AAAA"])
  else
    (.error (createDnsError none domain (some "No MX server found")), ["AAAA"])

/-- Step 2 of `resolveMX`: the A-record fallback, falling through to the
AAAA step (unless `ignoreIPv6`) and to the final "no MX server found"
rejection. -/
def resolveMXFallbackA (isInvalid : String → Option String) (inp : MxResolveInput)
    (oracle : DnsOracle) : Except JsError (List MxEntry) × List String :=
  let domain := inp.decodedDomain
  let ares := tryResolve oracle.aQuery
  if !ares.1.isEmpty then
    let fres := mapFallbackA isInvalid inp.domain domain (none, false) ares.1
    if !fres.1.2 && fres.1.1.isSome then
      ((match fres.1.1 with
        | some e => .error e
        | none => .ok fres.2), ["A"])
    else (.ok fres.2, ["A"])
  else if ares.2.isSome && !isRecoverableError ares.2 then
    (.error (createDnsError ares.2 domain none), ["A"])
  else if !inp.ignoreIPv6 then
    let next := resolveMXFallbackAAAA isInvalid inp oracle
    (next.1, "A" :: next.2)
  else
    (.error (createDnsError none domain (some "No MX server found")), ["A"])

/-- `resolveMX(delivery)` from `lib/resolve-mx.js`, instrumented with the list
of DNS queries it performs (`"MX"`, `"A"`, `"AAAA"` in order). `is4`/`is6`
model `net.isIPv4`/`net.isIPv6`, `isInvalid` models `tools.isInvalid`. -/
def resolveMXModel (is4 is6 : String → Bool) (isInvalid : String → Option String)
    (inp : MxResolveInput) (oracle : DnsOracle) :
    Except JsError (List MxEntry) × List String :=
  if inp.isIp then
    let ip := inp.decodedDomain
    let (st, keep) := filterAddressStep isInvalid inp.domain (none, false) ip
    match keep, st.1 with
    | false, some e => (.error e, [])
    | _, _ =>
        (.ok [{ priority := 0, exchange := some ip,
                A := if is4 ip then [ip] else [],
                AAAA := if is6 ip && !inp.ignoreIPv6 then [ip] else [] }], [])
  else
    let domain := inp.decodedDomain
    let mres := tryResolve oracle.mxQuery
    if !mres.1.isEmpty then
      (.ok ((List.insertionSort mxRecordLE mres.1).map fun r =>
        { exchange := some r.exchange, priority := r.priority, mx := some true,
          A := [], AAAA := [] }), ["MX"])
    else if mres.2.isSome && !isRecoverableError mres.2 then
      (.error (createDnsError mres.2 domain none), ["MX"])
    else
      let next := resolveMXFallbackA isInvalid inp oracle
      (next.1, "MX" :: next.2)

/-! ### `lib/dane.js` -/

/-- A server certificate as seen by the verifier: `raw` is the DER encoding
(`cert.raw`, possibly missing on malformed objects), `spkiDer` is the DER
SubjectPublicKeyInfo that `extractSPKI` exports from `cert.publicKey`
(`none` when `cert.publicKey` is missing). -/
structure Cert where
  raw : Option Bytes := none
  spkiDer : Option Bytes := none
  deriving Repr, DecidableEq

/-- `extractSPKI(cert)`: `null` when the certificate has no public key. -/
def extractSPKI (cert : Cert) : Option Bytes :=
  cert.spkiDer

/-- `getCertData(cert, selector)`: selector 1 picks the SPKI, anything else
the full DER certificate. -/
def getCertData (cert : Cert) (selector : Int) : Option Bytes :=
  if selector = 1 then extractSPKI cert else cert.raw

/-- `hashCertData(data, matchingType)` with the `node:crypto` hashes passed
in as parameters; matching type 1 is SHA-256, 2 is SHA-512, everything else
(including an absent matching type) keeps the data as-is. -/
def hashCertData (sha256 sha512 : Bytes → Bytes) (data : Option Bytes)
    (matchingType : Option Int) : Option Bytes :=
  match data with
  | none => none
  | some d =>
      match matchingType with
      | some 1 => some (sha256 d)
      | some 2 => some (sha512 d)
      | _ => some d

/-- `record.mtype !== undefined ? record.mtype : record.matchingType`. -/
def tlsaMatchingType (r : TlsaRecord) : Option Int :=
  match r.mtype with
  | some m => some m
  | none => r.matchingType

/-- `record.cert || record.data` (association data of a TLSA record). -/
def tlsaAssocData (r : TlsaRecord) : Option Bytes :=
  match r.cert with
  | some c => some c
  | none => r.data

/-- Result object of `verifyCertAgainstTlsa`. -/
structure VerifyResult where
  valid : Bool := false
  matchedRecord : Option TlsaRecord := none
  error : Option String := none
  noRecords : Bool := false
  usage : Option String := none
  deriving Repr, DecidableEq

/-- The record loop of `verifyCertAgainstTlsa`: first matching record wins,
EE usages (3, 1) are checked against the end-entity certificate, TA usages
(2, 0) against every certificate of the chain (when one is available). -/
def verifyTlsaLoop (sha256 sha512 : Bytes → Bytes) (cert : Cert) (chain : List Cert) :
    List TlsaRecord → VerifyResult
  | [] => { valid := false, matchedRecord := none,
            error := some "Certificate did not match any TLSA record" }
  | r :: rest =>
      match tlsaAssocData r with
      | none => verifyTlsaLoop sha256 sha512 cert chain rest
      | some expected =>
          let eeHash := hashCertData sha256 sha512 (getCertData cert r.selector) (tlsaMatchingType r)
          if (r.usage = 3 || r.usage = 1) && eeHash = some expected then
            { valid := true, matchedRecord := some r, error := none,
              usage := some (if r.usage = 3 then "DANE-EE" else "PKIX-EE") }
          else if (r.usage = 2 || r.usage = 0) && !chain.isEmpty &&
              chain.any (fun c =>
                hashCertData sha256 sha512 (getCertData c r.selector) (tlsaMatchingType r)
                  = some expected) then
            { valid := true, matchedRecord := some r, error := none,
              usage := some (if r.usage = 2 then "DANE-TA" else "PKIX-TA") }
          else verifyTlsaLoop sha256 sha512 cert chain rest

/-- `verifyCertAgainstTlsa(cert, tlsaRecords, chain)` from `lib/dane.js`. -/
def verifyCertAgainstTlsa (sha256 sha512 : Bytes → Bytes) (cert : Option Cert)
    (tlsaRecords : Option (List TlsaRecord)) (chain : Option (List Cert)) : VerifyResult :=
  match tlsaRecords with
  | none => { valid := true, matchedRecord := none, error := none, noRecords := true }
  | some records =>
      if records.isEmpty then
        { valid := true, matchedRecord := none, error := none, noRecords := true }
      else
        match cert with
        | none => { valid := false, matchedRecord := none, error := some "No certificate provided" }
        | some c => verifyTlsaLoop sha256 sha512 c (chain.getD []) records

/-- DANE configuration slice consumed by the verifier closure and the
connection engine (`delivery.dane`). -/
structure DaneCfg where
  enabled : Bool := false
  verify : Option Bool := none
  deriving Repr, DecidableEq

/-- The `checkServerIdentity` closure produced by
`createDaneVerifier(tlsaRecords, options)`: `none` models the `undefined`
return (success), `some e` the returned error object. The TLS layer passes
no chain, so `verifyCertAgainstTlsa(cert, tlsaRecords)` is called with an
absent chain. -/
def createDaneVerifier (sha256 sha512 : Bytes → Bytes)
    (tlsaRecords : Option (List TlsaRecord)) (options : DaneCfg)
    (hostname : String) (cert : Option Cert) : Option JsError :=
  match tlsaRecords with
  | none => none
  | some records =>
      if records.isEmpty then none
      else
        let result := verifyCertAgainstTlsa sha256 sha512 cert (some records) none
        if !result.valid && !result.noRecords && options.verify ≠ some false then
          let resultErr := (result.error).getD ""
          some { message := s!"DANE verification failed for {hostname}: {resultErr}",
                 code := some "DANE_VERIFICATION_FAILED",
                 category := some "dane" }
        else none

/-- `resolveTlsaRecords(hostname, port, options)` for a configured custom
resolver: the resolver outcome is passed in (`.ok` with a possibly nullish
record list, or a thrown error). `ENODATA`/`ENOTFOUND`/`ENOENT` mean "no
DANE records" and yield `[]`; any other error is rethrown. -/
def resolveTlsaRecordsModel (outcome : Except JsError (Option (List TlsaRecord))) :
    Except JsError (List TlsaRecord) :=
  match outcome with
  | .ok r => .ok (r.getD [])
  | .error e =>
      if e.code = some "ENODATA" || e.code = some "ENOTFOUND" || e.code = some "ENOENT" then
        .ok []
      else .error e

/-- The per-MX body of `resolveDaneTlsa` in `lib/mx-connect.js`: skip entries
with caller-supplied TLSA records, store resolved records, and on a thrown
lookup error mark the entry as failed when `verify` is enabled (in the
shipped `lib/dane.js` no `isNoRecordsError` is exported, so the catch block's
`isNoRecords` flag is always falsy). -/
def daneTlsaUpdateMx (verify : Option Bool) (mx : MxEntry)
    (outcome : Except JsError (Option (List TlsaRecord))) : MxEntry :=
  if (mx.tlsaRecords.getD []).length > 0 then mx
  else
    match resolveTlsaRecordsModel outcome with
    | .ok records => { mx with tlsaRecords := some records }
    | .error err =>
        if verify ≠ some false then
          { mx with tlsaRecords := some [], daneLookupFailed := some true,
                    daneLookupError := some err }
        else { mx with tlsaRecords := some [] }

/-! ### `lib/get-connection.js` -/

/-- A connected TCP socket (only the properties the library reads). -/
structure Socket where
  sid : Nat := 0
  localAddress : Option String := none
  localPort : Option Int := none
  remoteAddress : Option String := none
  deriving Repr, DecidableEq

/-- One flattened connection target (an element of `mxHosts`). The fields
after `host` start out absent and are filled in by `tryConnect` /
`populateMxFromSocket`; `daneVerifierSet` models the attachment of the
`createDaneVerifier` closure. `ipv4`/`ipv6` model the presence of the JS
properties: each candidate gets exactly one of them set to `true`. -/
structure Candidate where
  hostname : Option String := none
  priority : Int := 0
  isMX : Option Bool := none
  policyMatch : Option PolicyMatch := none
  tlsaRecords : Option (List TlsaRecord) := none
  daneLookupFailed : Bool := false
  daneLookupError : Option JsError := none
  ipv4 : Option Bool := none
  ipv6 : Option Bool := none
  host : String := ""
  port : Option Int := none
  socket : Option Socket := none
  localAddress : Option String := none
  localHostname : Option String := none
  localPort : Option Int := none
  daneEnabled : Option Bool := none
  requireTls : Option Bool := none
  daneVerifierSet : Bool := false
  deriving Repr, DecidableEq

/-- The `baseEntry` shared by every IP of one MX entry. -/
def baseCandidate (m : MxEntry) : Candidate :=
  { hostname := m.exchange, priority := m.priority, isMX := m.mx,
    policyMatch := m.policyMatch,
    tlsaRecords := m.tlsaRecords,
    daneLookupFailed := m.daneLookupFailed.getD false,
    daneLookupError := m.daneLookupError }

/-- One `for (const ip of ...)` loop of `buildMxHostList`: push a candidate
per unseen IP, extending the seen set (modelled as a duplicate-free list). -/
def addFamily (mk : String → Candidate) :
    List Candidate × List String → List String → List Candidate × List String
  | st, [] => st
  | st, ip :: rest =>
      if st.2.contains ip then addFamily mk st rest
      else addFamily mk (st.1 ++ [mk ip], st.2 ++ [ip]) rest

/-- The entry loop of `buildMxHostList`: IPv4 addresses first, then IPv6. -/
def buildLoop : List Candidate × List String → List MxEntry → List Candidate × List String
  | st, [] => st
  | st, m :: rest =>
      buildLoop
        (addFamily (fun ip => { baseCandidate m with ipv6 := some true, host := ip })
          (addFamily (fun ip => { baseCandidate m with ipv4 := some true, host := ip })
            st m.A) m.AAAA) rest

/-- Slice of the delivery object consumed by the connection engine. -/
structure Delivery where
  domain : String := ""
  mx : List MxEntry := []
  preferIPv6 : Bool := false
  port : Option Int := none
  localAddress : Option String := none
  localHostname : Option String := none
  localAddressIPv4 : Option String := none
  localHostnameIPv4 : Option String := none
  localAddressIPv6 : Option String := none
  localHostnameIPv6 : Option String := none
  ignoreMXHosts : List String := []
  mxLastError : Option JsError := none
  dane : Option DaneCfg := none
  deriving Repr, DecidableEq

/-- `buildMxHostList(delivery)`: flatten, deduplicate by IP, then filter
`ignoreMXHosts`. Returns `(mxHosts, mxHostsSeen)`. -/
def buildMxHostList (d : Delivery) : List Candidate × List String :=
  let built := buildLoop ([], []) d.mx
  if !d.ignoreMXHosts.isEmpty then
    (built.1.filter (fun c => !d.ignoreMXHosts.contains c.host), built.2)
  else built

/-- `ToNumber` of a possibly-absent boolean property (`undefined` is NaN,
modelled as `none`). -/
def jsToNum : Option Bool → Option Int
  | some true => some 1
  | some false => some 0
  | none => none

/-- JS subtraction where either operand may be NaN. -/
def jsSubNum : Option Int → Option Int → Option Int
  | some a, some b => some (a - b)
  | _, _ => none

/-- The raw value of the `getConnection` sort comparator
`(a, b) => { priorityDiff = a.priority - b.priority; ... preferIPv6 ? b.ipv6 - a.ipv6 : 0 }`.
Comparing an IPv6 candidate with an IPv4 one evaluates `true - undefined`,
which is NaN (`none`). -/
def mxCompareRaw (preferIPv6 : Bool) (a b : Candidate) : Option Int :=
  if a.priority - b.priority ≠ 0 then some (a.priority - b.priority)
  else if preferIPv6 then jsSubNum (jsToNum b.ipv6) (jsToNum a.ipv6)
  else some 0

/-- `SortCompare` of ECMA-262: a NaN comparator result counts as `+0`. -/
def sortCompareVal (preferIPv6 : Bool) (a b : Candidate) : Int :=
  (mxCompareRaw preferIPv6 a b).getD 0

/-- The ES2019 `Array.prototype.sort` is stable; for a consistent comparator
its result is the stable insertion sort ordered by `comparator ≤ 0`. On every
list `buildMxHostList` produces, the effective comparator is consistent
(ties always compare as `0`), so this is a faithful model of the source's
`unsortedHosts.sort(...)`. -/
def jsSortMxHosts (preferIPv6 : Bool) (l : List Candidate) : List Candidate :=
  List.insertionSort (fun a b => sortCompareVal preferIPv6 a b ≤ 0) l

/-- `MAX_MX_HOSTS` cap of `getConnection`. -/
def MAX_MX_HOSTS : Nat := 20

/-- The pure prefix of `getConnection`: flatten, sort, cap.
Returns `(mxHosts, mxHostsSeen)`. -/
def getConnectionCandidates (d : Delivery) : List Candidate × List String :=
  let built := buildMxHostList d
  let sortedHosts := jsSortMxHosts d.preferIPv6 built.1
  (if sortedHosts.length > MAX_MX_HOSTS then sortedHosts.take MAX_MX_HOSTS else sortedHosts,
   built.2)

/-- The error produced by `getConnection` when the candidate list is empty
but `mxHostsSeen` is not (everything was filtered by `ignoreMXHosts`). -/
def emptyFilteredError (d : Delivery) : JsError :=
  let e :=
    match d.mxLastError with
    | some e0 => e0
    | none =>
        { message := s!"Connection to the Mail Exchange (MX) server of \"{d.domain}\" failed" }
  { e with
    response := some (e.response.getD ("Network error: " ++ e.message))
    category := some (e.category.getD "network")
    temporary := some (e.temporary ≠ some false) }

/-- The error produced by `getConnection` when no candidate ever existed. -/
def noMxServersError (d : Delivery) : JsError :=
  let msg := s!"No Mail Exchange (MX) servers were found for \"{d.domain}\""
  { message := msg, response := some ("DNS Error: " ++ msg), category := some "dns" }

/-- The empty-set handling of `getConnection`: either the non-empty candidate
list to try, or the rejection error. -/
def getConnectionPlan (d : Delivery) : Except JsError (List Candidate) :=
  let cands := getConnectionCandidates d
  if cands.1.isEmpty then
    if !cands.2.isEmpty then .error (emptyFilteredError d)
    else .error (noMxServersError d)
  else .ok cands.1

/-! #### The try loop -/

/-- The mutable `delivery.localAddress` / `delivery.localHostname` pair. -/
structure LocalState where
  localAddress : Option String := none
  localHostname : Option String := none
  deriving Repr, DecidableEq

/-- Apply a classifier to a possibly-undefined string (`net.isIPv4(undefined)`
is `false`). -/
def optIs (f : String → Bool) : Option String → Bool
  | some s => f s
  | none => false

/-- `updateLocalAddressForTarget(delivery, mx)`: switch the local binding to
the family of the target IP when needed. -/
def updateLocalAddressForTarget (is4 is6 : String → Bool) (d : Delivery)
    (st : LocalState) (host : String) : LocalState :=
  let needsUpdate :=
    st.localAddress.isNone || (is6 host && !optIs is6 st.localAddress) ||
      (is4 host && !optIs is4 st.localAddress)
  if !needsUpdate then st
  else if is6 host then
    { localAddress := d.localAddressIPv6,
      localHostname :=
        match d.localHostnameIPv6 with
        | some h => some h
        | none => st.localHostname }
  else
    { localAddress := d.localAddressIPv4,
      localHostname :=
        match d.localHostnameIPv4 with
        | some h => some h
        | none => st.localHostname }

/-- The options object assembled by `tryConnect` (before the hook runs). -/
structure ConnOptions where
  port : Int := 25
  host : String := ""
  localHostname : Option String := none
  localAddress : Option String := none
  localPort : Option Int := none
  socket : Option Socket := none
  deriving Repr, DecidableEq

/-- The error object built by a failed enforced MTA-STS check. -/
def policyRejectError (d : Delivery) (mx : Candidate) : JsError :=
  let hn := (mx.hostname).getD ""
  let msg := s!"MTA-STS policy check failed for {hn}[{mx.host}] for {d.domain}"
  { message := msg, response := some ("Policy error: " ++ msg), category := some "policy" }

/-- `checkMtaStsPolicy(delivery, mx, emitConnectError)`: `some err` models the
returned `{success: false, error, fatal: false}` failure (the error is also
emitted), `none` the `null` return. -/
def checkMtaStsPolicyModel (d : Delivery) (mx : Candidate) : Option JsError :=
  match mx.policyMatch with
  | none => none
  | some pm =>
      if !pm.valid && !(pm.testing.getD false) then some (policyRejectError d mx)
      else none

/-- The DANE pre-connect gate of `tryConnect`:
`delivery.dane && delivery.dane.enabled && mx.daneLookupFailed && delivery.dane.verify !== false`. -/
def daneLookupGate (d : Delivery) (mx : Candidate) : Bool :=
  match d.dane with
  | some dc => dc.enabled && mx.daneLookupFailed && dc.verify ≠ some false
  | none => false

/-- The error built by the DANE pre-connect gate. -/
def daneLookupGateError (_d : Delivery) (mx : Candidate) : JsError :=
  let errMsg :=
    match mx.daneLookupError with
    | some e0 => if e0.message ≠ "" then e0.message else "unknown error"
    | none => "unknown error"
  let hn := (mx.hostname).getD ""
  let msg := s!"DANE TLSA lookup failed for {hn}: {errMsg}"
  { message := msg, response := some ("DANE error: " ++ msg),
    category := some "dane", temporary := some true }

/-- Outcome of the user `connectHook`: absent, completed (possibly having
written `options.socket`), or failed with an error. -/
inductive HookOutcome where
  | noHook
  | done (socket : Option Socket)
  | fail (e : JsError)
  deriving Repr, DecidableEq

/-- Outcome of the raced TCP connect attempt (`connectWithTimeout`). -/
inductive TcpOutcome where
  | connected (s : Socket)
  | sockError (e : JsError)
  | timeout
  deriving Repr, DecidableEq

/-- External events consumed by one `tryConnect` call. -/
structure HookTcp where
  hook : HookOutcome := .noHook
  tcp : TcpOutcome := .timeout
  deriving Repr, DecidableEq

/-- `connectWithTimeout(options, maxTime)`: the single-winner race, as the
promise outcome it settles with. -/
def connectWithTimeoutModel (t : TcpOutcome) : Except JsError Socket :=
  match t with
  | .connected s => .ok s
  | .sockError e => .error e
  | .timeout =>
      .error { message := "Connection timed out when connecting to MX server",
               response := some "Network error: Connection timed out when connecting to MX server",
               category := some "network", temporary := some true }

/-- `mx.hostname || socket.remoteAddress` (empty string is falsy). -/
def jsOrStr (a b : Option String) : Option String :=
  if a.getD "" ≠ "" then a else b

/-- `populateMxFromSocket(mx, socket, options)`. -/
def populateMxFromSocket (mx : Candidate) (s : Socket) (opts : ConnOptions) :
    Candidate × ConnOptions :=
  ({ mx with socket := some s, localAddress := s.localAddress,
             localHostname := opts.localHostname, localPort := s.localPort,
             hostname := jsOrStr mx.hostname s.remoteAddress },
   { opts with localAddress := s.localAddress, localPort := s.localPort })

/-- Result of one `tryConnect` call, instrumented with the errors passed to
`emitConnectError` and whether `net.connect` was invoked. -/
structure TryOutcome where
  success : Bool := false
  fatal : Bool := false
  result : Option Candidate := none
  error : Option JsError := none
  emitted : List JsError := []
  tcpAttempted : Bool := false
  deriving Repr, DecidableEq

/-- The retryable network error built in the `.catch` of `tryConnect` for a
socket-phase failure. -/
def socketPhaseError (d : Delivery) (mx : Candidate) (err : JsError) : JsError :=
  let errorMessage :=
    match err.code.bind netErrors with
    | some m => m
    | none =>
        match err.errno.bind netErrors with
        | some m => m
        | none => err.message
  let hn := (mx.hostname).getD ""
  let message :=
    s!"Network error when connecting to MX server {hn}[{mx.host}] for {d.domain}: {errorMessage}"
  { err with
    message := message
    response := some (err.response.getD ("Network error: " ++ message))
    category := some (err.category.getD "network")
    temporary := some true }

/-- `tryConnect(delivery, mx)`: returns the attempt outcome and the delivery's
updated local-binding state. External behaviour (hook, TCP race) is supplied
through `ext`. -/
def tryConnectModel (is4 is6 : String → Bool) (d : Delivery) (st : LocalState)
    (mx : Candidate) (ext : HookTcp) : TryOutcome × LocalState :=
  let st' := updateLocalAddressForTarget is4 is6 d st mx.host
  let opts : ConnOptions :=
    { port := d.port.getD 25, host := mx.host,
      localHostname := if (st'.localHostname).getD "" ≠ "" then st'.localHostname else none,
      localAddress := if st'.localAddress = some mx.host then none else st'.localAddress }
  let mx := { mx with port := some opts.port }
  match checkMtaStsPolicyModel d mx with
  | some perr => ({ success := false, fatal := false, error := some perr,
                    emitted := [perr] }, st')
  | none =>
      if daneLookupGate d mx then
        let derr := daneLookupGateError d mx
        ({ success := false, fatal := false, error := some derr, emitted := [derr] }, st')
      else
        let daneActive :=
          match d.dane with
          | some dc => dc.enabled && (mx.tlsaRecords.getD []).length > 0
          | none => false
        let mx :=
          if daneActive then
            { mx with daneVerifierSet := true, daneEnabled := some true,
                      requireTls := some true }
          else mx
        match ext.hook with
        | .fail e => ({ success := false, fatal := true, error := some e }, st')
        | h =>
            let hookSocket :=
              match h with
              | .done s => s
              | _ => none
            match hookSocket with
            | some s =>
                let (mx', _) := populateMxFromSocket mx s { opts with socket := some s }
                ({ success := true, result := some mx' }, st')
            | none =>
                match connectWithTimeoutModel ext.tcp with
                | .ok s =>
                    let (mx', _) := populateMxFromSocket mx s opts
                    ({ success := true, result := some mx', tcpAttempted := true }, st')
                | .error err =>
                    let err' := socketPhaseError d mx err
                    ({ success := false, fatal := false, error := some err',
                       emitted := [err'], tcpAttempted := true }, st')

/-- The error thrown by `tryNextMX` once every host is exhausted. -/
def exhaustedError (d : Delivery) (firstError : Option JsError) : JsError :=
  let e :=
    match firstError with
    | some e0 => e0
    | none =>
        { message :=
            s!"Unable to establish a connection with any of the Mail Exchange (MX) servers listed for \"{d.domain}\"" }
  { e with
    response := some (e.response.getD ("Network error: " ++ e.message))
    category := some (e.category.getD "network") }

/-- `tryNextMX(delivery, mxHosts, index, firstError)`, instrumented with the
list of hosts actually attempted (in order). -/
def tryNextMXModel (is4 is6 : String → Bool) (d : Delivery) :
    List Candidate → List HookTcp → LocalState → Option JsError →
      Except JsError Candidate × List String
  | [], _, _, firstError => (.error (exhaustedError d firstError), [])
  | c :: rest, exts, st, firstError =>
      let ext := exts.headD {}
      let res := tryConnectModel is4 is6 d st c ext
      if res.1.success then (.ok (res.1.result.getD c), [c.host])
      else if res.1.fatal then (.error (res.1.error.getD {}), [c.host])
      else
        let next :=
          tryNextMXModel is4 is6 d rest exts.tail res.2
            (match firstError with
             | some e => some e
             | none => res.1.error)
        (next.1, c.host :: next.2)

/-- `getConnection(delivery)`: plan, then the sequential try loop. -/
def getConnectionModel (is4 is6 : String → Bool) (d : Delivery) (exts : List HookTcp) :
    Except JsError Candidate × List String :=
  match getConnectionPlan d with
  | .error e => (.error e, [])
  | .ok mxHosts =>
      tryNextMXModel is4 is6 d mxHosts exts
        { localAddress := d.localAddress, localHostname := d.localHostname } none

/-! ### `normalizeMxEntry` from `lib/mx-connect.js` -/

/-- A caller-supplied MX hint: a bare string (hostname or IP literal) or an
object. An object's `priority` is characterized by its `Number(...)` image:
outer `none` means the property is absent (`Number(undefined)` is NaN),
`some none` a present value whose `Number(...)` is NaN, `some (some n)` a
value coercing to `n`. `mxFlag` models an `mx` property the caller may pass;
`normalizeMxEntry` never reads it. -/
inductive MxHint where
  | str (s : String)
  | obj (exchange : Option String) (priority : Option (Option Int))
      (A : Option (List String)) (AAAA : Option (List String))
      (tlsaRecords : Option (List TlsaRecord)) (mxFlag : Option Bool)
  deriving Repr, DecidableEq

/-- `Number(mx && mx.priority) || 0`. -/
def coercePriority : Option (Option Int) → Int
  | some (some n) => n
  | _ => 0

/-- `normalizeMxEntry(mx)` from `lib/mx-connect.js` (`is4`/`is6` model
`net.isIPv4`/`net.isIPv6`). -/
def normalizeMxEntry (is4 is6 : String → Bool) : MxHint → MxEntry
  | .str s =>
      { exchange := some s, priority := 0,
        A := if is4 s then [s] else [],
        AAAA := if is6 s then [s] else [],
        mx := some false, tlsaRecords := none }
  | .obj e p a4 a6 t _mf =>
      { exchange := e, priority := coercePriority p,
        A := a4.getD [], AAAA := a6.getD [],
        mx := some false, tlsaRecords := t }

/-! ### Claim theorems -/

/-- C10: for every caller-supplied MX hint, normalization sets `mx = false`
(never `true`, whatever `mx` flag the caller passed); a missing or
non-numeric `priority` is coerced to `0`; and a string hint recognized as an
IPv4 (resp. IPv6) address lands in the `A` (resp. `AAAA`) array with the IP
as the `exchange`. -/
theorem normalizeMxEntry_spec (is4 is6 : String → Bool) (hint : MxHint) :
    (normalizeMxEntry is4 is6 hint).mx = some false ∧
    (∀ e p a4 a6 t mf, hint = .obj e p a4 a6 t mf → (p = none ∨ p = some none) →
      (normalizeMxEntry is4 is6 hint).priority = 0) ∧
    (∀ s, hint = .str s → is4 s = true →
      (normalizeMxEntry is4 is6 hint).exchange = some s ∧
      (normalizeMxEntry is4 is6 hint).A = [s]) ∧
    (∀ s, hint = .str s → is6 s = true →
      (normalizeMxEntry is4 is6 hint).exchange = some s ∧
      (normalizeMxEntry is4 is6 hint).AAAA = [s]) := by
  refine ⟨?_, ?_, ?_, ?_⟩
  · cases hint <;> rfl
  · rintro e p a4 a6 t mf rfl (rfl | rfl) <;> rfl
  · rintro s rfl h4
    simp [normalizeMxEntry, h4]
  · rintro s rfl h6
    simp [normalizeMxEntry, h6]

/-- Witness for C10 at concrete inputs: an object hint with `mx: true` and a
non-numeric priority, and an IPv4-literal string hint. -/
theorem normalizeMxEntry_spec_witness :
    (normalizeMxEntry (fun s => s == "192.0.2.7") (fun s => s == "::1")
        (.obj (some "mx.example.com") (some none) none none none (some true))).mx
      = some false ∧
    (normalizeMxEntry (fun s => s == "192.0.2.7") (fun s => s == "::1")
        (.obj (some "mx.example.com") (some none) none none none (some true))).priority = 0 ∧
    (normalizeMxEntry (fun s => s == "192.0.2.7") (fun s => s == "::1")
        (.str "192.0.2.7")).exchange = some "192.0.2.7" ∧
    (normalizeMxEntry (fun s => s == "192.0.2.7") (fun s => s == "::1")
        (.str "192.0.2.7")).A = ["192.0.2.7"] := by
  refine ⟨(normalizeMxEntry_spec _ _ _).1, ?_, ?_, ?_⟩
  · exact (normalizeMxEntry_spec _ _ _).2.1 _ _ _ _ _ _ rfl (Or.inr rfl)
  · exact ((normalizeMxEntry_spec _ _ _).2.2.1 _ rfl (by decide)).1
  · exact ((normalizeMxEntry_spec _ _ _).2.2.1 _ rfl (by decide)).2

/-- C9: during TLSA resolution a resolver error with code `ENOENT` behaves
exactly like `ENODATA`/`ENOTFOUND`: the lookup yields an empty TLSA record
list instead of propagating, so the per-MX DANE step stores `[]` and never
sets `daneLookupFailed`, even with `verify` enabled. -/
theorem tlsa_enoent_treated_as_no_records (mx : MxEntry) (e : JsError)
    (hcode : e.code = some "ENOENT")
    (hrecs : mx.tlsaRecords = none ∨ mx.tlsaRecords = some []) :
    resolveTlsaRecordsModel (.error e) = .ok [] ∧
    resolveTlsaRecordsModel (.error { e with code := some "ENODATA" })
      = resolveTlsaRecordsModel (.error e) ∧
    resolveTlsaRecordsModel (.error { e with code := some "ENOTFOUND" })
      = resolveTlsaRecordsModel (.error e) ∧
    (daneTlsaUpdateMx (some true) mx (.error e)).daneLookupFailed = mx.daneLookupFailed ∧
    (daneTlsaUpdateMx (some true) mx (.error e)).tlsaRecords = some [] := by
  have hres : resolveTlsaRecordsModel (.error e) = .ok [] := by
    simp [resolveTlsaRecordsModel, hcode]
  have hskip : ¬(mx.tlsaRecords.getD []).length > 0 := by
    rcases hrecs with h | h <;> simp [h]
  refine ⟨hres, ?_, ?_, ?_, ?_⟩
  · simp [resolveTlsaRecordsModel, hcode]
  · simp [resolveTlsaRecordsModel, hcode]
  · simp [daneTlsaUpdateMx, hres, hskip]
  · simp [daneTlsaUpdateMx, hres, hskip]

/-- Witness for C9: a concrete entry and a concrete `ENOENT` error. -/
theorem tlsa_enoent_treated_as_no_records_witness :
    resolveTlsaRecordsModel (.error { message := "lookup failed", code := some "ENOENT" })
      = .ok [] ∧
    (daneTlsaUpdateMx (some true) { exchange := some "mx.example.com" }
        (.error { message := "lookup failed", code := some "ENOENT" })).daneLookupFailed
      = none := by
  have h := tlsa_enoent_treated_as_no_records { exchange := some "mx.example.com" }
    { message := "lookup failed", code := some "ENOENT" } rfl (Or.inl rfl)
  exact ⟨h.1, h.2.2.2.1⟩

/-- Every result of the TLSA record loop has `noRecords = false`. -/
theorem verifyTlsaLoop_noRecords (sha256 sha512 : Bytes → Bytes) (cert : Cert)
    (chain : List Cert) :
    ∀ l, (verifyTlsaLoop sha256 sha512 cert chain l).noRecords = false := by
  intro l
  induction l with
  | nil => rfl
  | cons r rest ih =>
      unfold verifyTlsaLoop
      cases h : tlsaAssocData r with
      | none => simpa [h] using ih
      | some expected =>
          simp only [h]
          split
          · rfl
          · split
            · rfl
            · exact ih

/-- A verification against a non-empty record list never reports `noRecords`. -/
theorem verifyCertAgainstTlsa_noRecords (sha256 sha512 : Bytes → Bytes)
    (cert : Option Cert) (records : List TlsaRecord) (chain : Option (List Cert))
    (hne : records ≠ []) :
    (verifyCertAgainstTlsa sha256 sha512 cert (some records) chain).noRecords = false := by
  have hemp : records.isEmpty = false := by
    cases records with
    | nil => exact absurd rfl hne
    | cons _ _ => rfl
  cases cert with
  | none => simp [verifyCertAgainstTlsa, hemp]
  | some c => simp [verifyCertAgainstTlsa, hemp, verifyTlsaLoop_noRecords]

/-- C2: the DANE verifier closure succeeds on an empty TLSA record list; a
certificate whose DER SHA-256 equals the association data of a
`(usage 3, selector 0, matchingType 1)` record verifies with matched usage
label `"DANE-EE"`; and a certificate matching no record (with `verify` not
set to `false`) produces an error object with code
`"DANE_VERIFICATION_FAILED"` and category `"dane"`. -/
theorem daneVerifier_spec (sha256 sha512 : Bytes → Bytes) (opts : DaneCfg)
    (hn : String) (c : Option Cert) :
    (createDaneVerifier sha256 sha512 none opts hn c = none ∧
     createDaneVerifier sha256 sha512 (some []) opts hn c = none) ∧
    (∀ cert d r, cert.raw = some d → r.usage = 3 → r.selector = 0 → r.mtype = some 1 →
      r.cert = some (sha256 d) →
      createDaneVerifier sha256 sha512 (some [r]) opts hn (some cert) = none ∧
      (verifyCertAgainstTlsa sha256 sha512 (some cert) (some [r]) none).valid = true ∧
      (verifyCertAgainstTlsa sha256 sha512 (some cert) (some [r]) none).usage
        = some "DANE-EE") ∧
    (∀ records, records ≠ [] →
      (verifyCertAgainstTlsa sha256 sha512 c (some records) none).valid = false →
      opts.verify ≠ some false →
      ∃ e, createDaneVerifier sha256 sha512 (some records) opts hn c = some e ∧
        e.code = some "DANE_VERIFICATION_FAILED" ∧ e.category = some "dane") := by
  refine ⟨⟨rfl, rfl⟩, ?_, ?_⟩
  · intro cert d r hraw husage hsel hmtype hcert
    have hmatch : verifyCertAgainstTlsa sha256 sha512 (some cert) (some [r]) none
        = { valid := true, matchedRecord := some r, error := none,
            usage := some "DANE-EE" } := by
      unfold verifyCertAgainstTlsa verifyTlsaLoop
      simp [tlsaAssocData, hcert, tlsaMatchingType, hmtype, husage, hsel,
        getCertData, hraw, hashCertData]
    refine ⟨?_, by rw [hmatch], by rw [hmatch]⟩
    unfold createDaneVerifier
    simp [hmatch]
  · intro records hne hvalid hverify
    have hemp : records.isEmpty = false := by
      cases records with
      | nil => exact absurd rfl hne
      | cons _ _ => rfl
    unfold createDaneVerifier
    simp only [hemp, Bool.false_eq_true, if_false, hvalid,
      verifyCertAgainstTlsa_noRecords sha256 sha512 c records none hne,
      Bool.not_false, Bool.and_self, Bool.true_and, ne_eq, hverify, not_false_eq_true,
      decide_True, if_true]
    exact ⟨_, rfl, rfl, rfl⟩

/-- Witness for C2 at concrete inputs (a toy hash, a matching record and a
non-matching one). -/
theorem daneVerifier_spec_witness :
    createDaneVerifier (fun l => 0 :: l) (fun l => 1 :: l) (some [])
      { verify := some true } "mx.example.com" none = none ∧
    createDaneVerifier (fun l => 0 :: l) (fun l => 1 :: l)
      (some [{ usage := 3, selector := 0, mtype := some 1, cert := some [0, 7] }])
      { verify := some true } "mx.example.com" (some { raw := some [7] }) = none ∧
    (verifyCertAgainstTlsa (fun l => 0 :: l) (fun l => 1 :: l) (some { raw := some [7] })
      (some [{ usage := 3, selector := 0, mtype := some 1, cert := some [0, 7] }]) none).usage
        = some "DANE-EE" ∧
    (∃ e, createDaneVerifier (fun l => 0 :: l) (fun l => 1 :: l)
        (some [{ usage := 3, selector := 0, mtype := some 1, cert := some [9] }])
        { verify := some true } "mx.example.com" (some { raw := some [7] }) = some e ∧
      e.code = some "DANE_VERIFICATION_FAILED" ∧ e.category = some "dane") := by
  have h1 := daneVerifier_spec (fun l => 0 :: l) (fun l => 1 :: l)
    { verify := some true } "mx.example.com" none
  have h2 := daneVerifier_spec (fun l => 0 :: l) (fun l => 1 :: l)
    { verify := some true } "mx.example.com" (some { raw := some [7] })
  refine ⟨h1.1.2, ?_, ?_, ?_⟩
  · exact (h2.2.1 { raw := some [7] } [7]
      { usage := 3, selector := 0, mtype := some 1, cert := some [0, 7] }
      rfl rfl rfl rfl rfl).1
  · exact (h2.2.1 { raw := some [7] } [7]
      { usage := 3, selector := 0, mtype := some 1, cert := some [0, 7] }
      rfl rfl rfl rfl rfl).2.2
  · exact h2.2.2 [{ usage := 3, selector := 0, mtype := some 1, cert := some [9] }]
      (by decide) (by decide) (by decide)

/-- The delivery exhibiting the `preferIPv6` sort bug: one MX entry with one
IPv4 and one IPv6 address at the same priority and `preferIPv6 = true`. -/
def c1Delivery : Delivery :=
  { domain := "example.com",
    mx := [{ exchange := some "mx.example.com", priority := 10, mx := some true,
             A := ["192.0.2.1"], AAAA := ["2001:db8::1"] }],
    preferIPv6 := true }

/-- C1 (code bug): with `preferIPv6 = true` the equal-priority IPv6 candidate
is NOT moved before the IPv4 one. The tie-break `b.ipv6 - a.ipv6` evaluates
`true - undefined`, i.e. NaN (`mxCompareRaw` returns `none`), which
`Array.prototype.sort` treats as `0`, so insertion order (IPv4 first, as
`buildMxHostList` pushes `A` before `AAAA`) is kept. -/
theorem preferIPv6_tie_break_inert_at_input :
    (getConnectionCandidates c1Delivery).1.map Candidate.host
      = ["192.0.2.1", "2001:db8::1"] ∧
    mxCompareRaw true { priority := 10, ipv4 := some true, host := "192.0.2.1" }
      { priority := 10, ipv6 := some true, host := "2001:db8::1" } = none := by
  exact ⟨rfl, rfl⟩

/-- C8: when the candidate list is empty after filtering, `getConnection`
rejects: if any candidate existed before the `ignoreMXHosts` filter
(`mxHostsSeen` non-empty) the error is `delivery.mxLastError` when provided
(message/code preserved, category defaulted to `network`), else a synthetic
error with category `network` and `temporary = true`; if no candidate ever
existed the error has category `dns`. -/
theorem getConnection_empty_set_handling (d : Delivery)
    (hempty : (getConnectionCandidates d).1 = []) :
    ∃ e, getConnectionPlan d = .error e ∧
      ((getConnectionCandidates d).2 ≠ [] →
        (∀ e0, d.mxLastError = some e0 →
          e.message = e0.message ∧ e.code = e0.code ∧
          e.category = some (e0.category.getD "network")) ∧
        (d.mxLastError = none →
          e.category = some "network" ∧ e.temporary = some true)) ∧
      ((getConnectionCandidates d).2 = [] → e.category = some "dns") := by
  have hplan : getConnectionPlan d =
      (if !(getConnectionCandidates d).2.isEmpty then .error (emptyFilteredError d)
       else .error (noMxServersError d)) := by
    unfold getConnectionPlan
    simp [hempty]
  by_cases hseen : (getConnectionCandidates d).2 = []
  · refine ⟨noMxServersError d, ?_, ?_, ?_⟩
    · rw [hplan, hseen]
      rfl
    · intro h
      exact absurd hseen h
    · intro _
      rfl
  · have hseenB : (getConnectionCandidates d).2.isEmpty = false := by
      cases h : (getConnectionCandidates d).2 with
      | nil => exact absurd h hseen
      | cons _ _ => rfl
    refine ⟨emptyFilteredError d, ?_, ?_, ?_⟩
    · rw [hplan, hseenB]
      rfl
    · refine fun _ => ⟨?_, ?_⟩
      · intro e0 h0
        unfold emptyFilteredError
        rw [h0]
        exact ⟨rfl, rfl, rfl⟩
      · intro h0
        unfold emptyFilteredError
        rw [h0]
        exact ⟨rfl, rfl⟩
    · intro h
      exact absurd h hseen

/-- Witness for C8: a delivery with no MX entries at all (category `dns`),
and one whose only candidate is removed by `ignoreMXHosts` with a provided
`mxLastError`. -/
theorem getConnection_empty_set_handling_witness :
    (∃ e, getConnectionPlan { domain := "example.com" } = .error e ∧
      e.category = some "dns") ∧
    (∃ e, getConnectionPlan
        { domain := "example.com",
          mx := [{ exchange := some "mx.example.com", priority := 10, A := ["192.0.2.1"] }],
          ignoreMXHosts := ["192.0.2.1"],
          mxLastError := some { message := "previous failure", code := some "ECONNRESET" } }
        = .error e ∧
      e.message = "previous failure" ∧ e.code = some "ECONNRESET" ∧
      e.category = some "network") := by
  constructor
  · obtain ⟨e, h1, _, h3⟩ := getConnection_empty_set_handling { domain := "example.com" } rfl
    exact ⟨e, h1, h3 rfl⟩
  · obtain ⟨e, h1, h2, _⟩ := getConnection_empty_set_handling
      { domain := "example.com",
        mx := [{ exchange := some "mx.example.com", priority := 10, A := ["192.0.2.1"] }],
        ignoreMXHosts := ["192.0.2.1"],
        mxLastError := some { message := "previous failure", code := some "ECONNRESET" } }
      rfl
    obtain ⟨ha, hb, hc⟩ := (h2 (by decide)).1
      { message := "previous failure", code := some "ECONNRESET" } rfl
    exact ⟨e, h1, ha, hb, hc⟩

/-- The A fallback stage always performs the A query first. -/
theorem resolveMXFallbackA_log (isInvalid : String → Option String)
    (inp : MxResolveInput) (oracle : DnsOracle) :
    (resolveMXFallbackA isInvalid inp oracle).2.head? = some "A" := by
  simp only [resolveMXFallbackA]
  split
  · split <;> rfl
  · split
    · rfl
    · split <;> rfl

/-- A DNS error with code `ENODATA` or `ENOTFOUND` on the MX query lets
resolution proceed to the A fallback, while any other error code fails
immediately — the A lookup is never attempted and the resulting error has
category `dns` and `temporary = true`. -/
theorem resolveMX_mx_error_routing (is4 is6 : String → Bool)
    (isInvalid : String → Option String) (inp : MxResolveInput) (oracle : DnsOracle)
    (e : JsError) (hIp : inp.isIp = false) (hmx : oracle.mxQuery = .error e) :
    ((e.code = some "ENODATA" ∨ e.code = some "ENOTFOUND") →
      "A" ∈ (resolveMXModel is4 is6 isInvalid inp oracle).2) ∧
    (e.code ≠ some "ENODATA" → e.code ≠ some "ENOTFOUND" →
      (resolveMXModel is4 is6 isInvalid inp oracle).2 = ["MX"] ∧
      ∃ e2, (resolveMXModel is4 is6 isInvalid inp oracle).1 = .error e2 ∧
        e2.category = some "dns" ∧ e2.temporary = some true) := by
  constructor
  · intro hcode
    have hrec : isRecoverableError (some e) = true := by
      rcases hcode with h | h <;> simp [isRecoverableError, isNotFoundError, h]
    have hmain : (resolveMXModel is4 is6 isInvalid inp oracle).2
        = "MX" :: (resolveMXFallbackA isInvalid inp oracle).2 := by
      simp only [resolveMXModel, hIp, Bool.false_eq_true, if_false, hmx, tryResolve,
        List.isEmpty_nil, Bool.not_true, Option.isSome_some, hrec, Bool.not_true,
        Bool.and_false, if_false]
    rw [hmain]
    exact List.mem_cons_of_mem _
      (List.mem_of_mem_head? (resolveMXFallbackA_log isInvalid inp oracle))
  · intro h1 h2
    have hnf : isNotFoundError (some e) = false := by
      simp [isNotFoundError, h1, h2]
    have hrec : isRecoverableError (some e) = false := by
      simp [isRecoverableError, hnf]
    have hmain : resolveMXModel is4 is6 isInvalid inp oracle
        = (.error (createDnsError (some e) inp.decodedDomain none), ["MX"]) := by
      simp only [resolveMXModel, hIp, Bool.false_eq_true, if_false, hmx, tryResolve,
        List.isEmpty_nil, Bool.not_true, Option.isSome_some, hrec, Bool.not_false,
        Bool.and_self, if_true, Bool.true_and]
    rw [hmain]
    refine ⟨rfl, createDnsError (some e) inp.decodedDomain none, rfl, ?_, ?_⟩
    · unfold createDnsError
      simp
    · unfold createDnsError
      simp [hnf]

/-- The AAAA fallback stage always performs the AAAA query first. -/
theorem resolveMXFallbackAAAA_log (isInvalid : String → Option String)
    (inp : MxResolveInput) (oracle : DnsOracle) :
    (resolveMXFallbackAAAA isInvalid inp oracle).2.head? = some "AAAA" := by
  simp only [resolveMXFallbackAAAA]
  split
  · split <;> rfl
  · split <;> rfl

/-- When the MX answer is empty and its error recoverable, `resolveMX`
falls through to the A stage. -/
theorem resolveMXModel_fallthrough_mx (is4 is6 : String → Bool)
    (isInvalid : String → Option String) (inp : MxResolveInput) (oracle : DnsOracle)
    (hIp : inp.isIp = false)
    (hmxE : (tryResolve oracle.mxQuery).1 = [])
    (hmxR : isRecoverableError (tryResolve oracle.mxQuery).2 = true) :
    resolveMXModel is4 is6 isInvalid inp oracle
      = ((resolveMXFallbackA isInvalid inp oracle).1,
         "MX" :: (resolveMXFallbackA isInvalid inp oracle).2) := by
  simp only [resolveMXModel, hIp, Bool.false_eq_true, if_false, hmxE, List.isEmpty_nil,
    Bool.not_true, hmxR, Bool.and_false, if_false]

/-- When the A answer is empty, its error recoverable and `ignoreIPv6` off,
the A stage falls through to the AAAA stage. -/
theorem resolveMXFallbackA_fallthrough (isInvalid : String → Option String)
    (inp : MxResolveInput) (oracle : DnsOracle)
    (haE : (tryResolve oracle.aQuery).1 = [])
    (haR : isRecoverableError (tryResolve oracle.aQuery).2 = true)
    (h6 : inp.ignoreIPv6 = false) :
    resolveMXFallbackA isInvalid inp oracle
      = ((resolveMXFallbackAAAA isInvalid inp oracle).1,
         "A" :: (resolveMXFallbackAAAA isInvalid inp oracle).2) := by
  simp only [resolveMXFallbackA, haE, List.isEmpty_nil, Bool.not_true, Bool.false_eq_true,
    if_false, haR, Bool.and_false, h6, Bool.not_false, if_true]

/-- A non-recoverable error on the A query is rethrown by the A stage; the
AAAA query is not performed. -/
theorem resolveMXFallbackA_err (isInvalid : String → Option String)
    (inp : MxResolveInput) (oracle : DnsOracle) (e : JsError)
    (hae : oracle.aQuery = .error e) (hnr : isRecoverableError (some e) = false) :
    resolveMXFallbackA isInvalid inp oracle
      = (.error (createDnsError (some e) inp.decodedDomain none), ["A"]) := by
  simp only [resolveMXFallbackA, hae, tryResolve, List.isEmpty_nil, Bool.not_true,
    Bool.false_eq_true, if_false, Option.isSome_some, hnr, Bool.not_false, Bool.and_self,
    if_true, Bool.true_and]

/-- With `ignoreIPv6` set, a recoverable A-query error leaves nothing to
fall back to: the A stage fails with the final "No MX server found" error. -/
theorem resolveMXFallbackA_rec_ignore6 (isInvalid : String → Option String)
    (inp : MxResolveInput) (oracle : DnsOracle) (e : JsError)
    (hae : oracle.aQuery = .error e) (hr : isRecoverableError (some e) = true)
    (h6 : inp.ignoreIPv6 = true) :
    resolveMXFallbackA isInvalid inp oracle
      = (.error (createDnsError none inp.decodedDomain (some "No MX server found")), ["A"]) := by
  simp only [resolveMXFallbackA, hae, tryResolve, List.isEmpty_nil, Bool.not_true,
    Bool.false_eq_true, if_false, Option.isSome_some, hr, Bool.not_true, Bool.and_false,
    h6, Bool.not_true, Bool.true_and]

/-- A non-recoverable error on the AAAA query is rethrown by the AAAA stage. -/
theorem resolveMXFallbackAAAA_err (isInvalid : String → Option String)
    (inp : MxResolveInput) (oracle : DnsOracle) (e : JsError)
    (hae : oracle.aaaaQuery = .error e) (hnr : isRecoverableError (some e) = false) :
    resolveMXFallbackAAAA isInvalid inp oracle
      = (.error (createDnsError (some e) inp.decodedDomain none), ["AAAA"]) := by
  simp only [resolveMXFallbackAAAA, hae, tryResolve, List.isEmpty_nil, Bool.not_true,
    Bool.false_eq_true, if_false, Option.isSome_some, hnr, Bool.not_false, Bool.and_self,
    if_true, Bool.true_and]

/-- A recoverable error on the AAAA query leaves nothing to fall back to:
the AAAA stage fails with the final "No MX server found" error. -/
theorem resolveMXFallbackAAAA_rec (isInvalid : String → Option String)
    (inp : MxResolveInput) (oracle : DnsOracle) (e : JsError)
    (hae : oracle.aaaaQuery = .error e) (hr : isRecoverableError (some e) = true) :
    resolveMXFallbackAAAA isInvalid inp oracle
      = (.error (createDnsError none inp.decodedDomain (some "No MX server found")), ["AAAA"]) := by
  simp only [resolveMXFallbackAAAA, hae, tryResolve, List.isEmpty_nil, Bool.not_true,
    Bool.false_eq_true, if_false, Option.isSome_some, hr, Bool.not_true, Bool.and_false]

/-- A recoverable error code makes `isRecoverableError` true. -/
theorem isRecoverableError_of_code (e : JsError)
    (h : e.code = some "ENODATA" ∨ e.code = some "ENOTFOUND") :
    isRecoverableError (some e) = true := by
  rcases h with h | h <;> simp [isRecoverableError, isNotFoundError, h]

/-- A non-recoverable error code makes `isRecoverableError` false. -/
theorem isRecoverableError_of_other_code (e : JsError)
    (h1 : e.code ≠ some "ENODATA") (h2 : e.code ≠ some "ENOTFOUND") :
    isRecoverableError (some e) = false := by
  simp [isRecoverableError, isNotFoundError, h1, h2]

/-- `createDnsError` on a non-not-found error: category `dns`, temporary. -/
theorem createDnsError_other (e : JsError) (dd : String)
    (h1 : e.code ≠ some "ENODATA") (h2 : e.code ≠ some "ENOTFOUND") :
    (createDnsError (some e) dd none).category = some "dns" ∧
    (createDnsError (some e) dd none).temporary = some true := by
  have hnf : isNotFoundError (some e) = false := by
    simp [isNotFoundError, h1, h2]
  unfold createDnsError
  simp [hnf]

/-- The final "No MX server found" error carries no `temporary` flag. -/
theorem createDnsError_final_not_temporary (dd : String) :
    (createDnsError none dd (some "No MX server found")).temporary = none := by
  unfold createDnsError
  simp

/-- The oracle refuting C3 as stated: MX and A answer empty, the AAAA query
raises a recoverable `ENODATA` error. -/
def c3CounterOracle : DnsOracle :=
  { mxQuery := .ok none, aQuery := .ok none,
    aaaaQuery := .error { message := "queryAaaa ENODATA example.com", code := some "ENODATA" } }

/-- Counterexample to C3 as stated: the AAAA query raises `ENODATA` (the log
shows the AAAA lookup happened), yet the resolver does not "proceed without
failing" — it fails, with the final "No MX server found" `dns` error, which
is not even marked temporary. -/
theorem resolveMX_aaaa_recoverable_counterexample :
    (resolveMXModel (fun _ => false) (fun _ => false) (fun _ => none)
        { domain := "example.com", decodedDomain := "example.com" } c3CounterOracle).2
      = ["MX", "A", "AAAA"] ∧
    (resolveMXModel (fun _ => false) (fun _ => false) (fun _ => none)
        { domain := "example.com", decodedDomain := "example.com" } c3CounterOracle).1
      = .error (createDnsError none "example.com" (some "No MX server found")) ∧
    (createDnsError none "example.com" (some "No MX server found")).temporary = none := by
  exact ⟨rfl, rfl, rfl⟩

/-- C3 (amended): for every DNS error raised by the MX or fallback A/AAAA
query, a code other than `ENODATA`/`ENOTFOUND` fails the resolver
immediately — no further fallback lookup is attempted — with category `dns`
and `temporary = true`; an `ENODATA`/`ENOTFOUND` code makes the resolver
proceed to the next fallback record type when one remains (A after MX, AAAA
after A unless `ignoreIPv6`), and after the last available record type
(AAAA, or A when `ignoreIPv6` is set) it fails with the final "No MX server
found" `dns` error, which is not marked temporary. -/
theorem resolveMX_dns_error_routing (is4 is6 : String → Bool)
    (isInvalid : String → Option String) (inp : MxResolveInput) (oracle : DnsOracle)
    (hIp : inp.isIp = false) :
    (∀ e, oracle.mxQuery = .error e →
      ((e.code = some "ENODATA" ∨ e.code = some "ENOTFOUND") →
        "A" ∈ (resolveMXModel is4 is6 isInvalid inp oracle).2) ∧
      (e.code ≠ some "ENODATA" → e.code ≠ some "ENOTFOUND" →
        (resolveMXModel is4 is6 isInvalid inp oracle).2 = ["MX"] ∧
        ∃ e2, (resolveMXModel is4 is6 isInvalid inp oracle).1 = .error e2 ∧
          e2.category = some "dns" ∧ e2.temporary = some true)) ∧
    ((tryResolve oracle.mxQuery).1 = [] →
      isRecoverableError (tryResolve oracle.mxQuery).2 = true →
      ∀ e, oracle.aQuery = .error e →
      ((e.code = some "ENODATA" ∨ e.code = some "ENOTFOUND") → inp.ignoreIPv6 = false →
        "AAAA" ∈ (resolveMXModel is4 is6 isInvalid inp oracle).2) ∧
      ((e.code = some "ENODATA" ∨ e.code = some "ENOTFOUND") → inp.ignoreIPv6 = true →
        (resolveMXModel is4 is6 isInvalid inp oracle).1
          = .error (createDnsError none inp.decodedDomain (some "No MX server found")) ∧
        (resolveMXModel is4 is6 isInvalid inp oracle).2 = ["MX", "A"] ∧
        (createDnsError none inp.decodedDomain (some "No MX server found")).temporary
          = none) ∧
      (e.code ≠ some "ENODATA" → e.code ≠ some "ENOTFOUND" →
        (resolveMXModel is4 is6 isInvalid inp oracle).2 = ["MX", "A"] ∧
        ∃ e2, (resolveMXModel is4 is6 isInvalid inp oracle).1 = .error e2 ∧
          e2.category = some "dns" ∧ e2.temporary = some true)) ∧
    ((tryResolve oracle.mxQuery).1 = [] →
      isRecoverableError (tryResolve oracle.mxQuery).2 = true →
      (tryResolve oracle.aQuery).1 = [] →
      isRecoverableError (tryResolve oracle.aQuery).2 = true →
      inp.ignoreIPv6 = false →
      ∀ e, oracle.aaaaQuery = .error e →
      ((e.code = some "ENODATA" ∨ e.code = some "ENOTFOUND") →
        (resolveMXModel is4 is6 isInvalid inp oracle).1
          = .error (createDnsError none inp.decodedDomain (some "No MX server found")) ∧
        (createDnsError none inp.decodedDomain (some "No MX server found")).temporary
          = none) ∧
      (e.code ≠ some "ENODATA" → e.code ≠ some "ENOTFOUND" →
        (resolveMXModel is4 is6 isInvalid inp oracle).2 = ["MX", "A", "AAAA"] ∧
        ∃ e2, (resolveMXModel is4 is6 isInvalid inp oracle).1 = .error e2 ∧
          e2.category = some "dns" ∧ e2.temporary = some true)) := by
  refine ⟨?_, ?_, ?_⟩
  · intro e hmx
    exact resolveMX_mx_error_routing is4 is6 isInvalid inp oracle e hIp hmx
  · intro hmxE hmxR e hae
    have hmain := resolveMXModel_fallthrough_mx is4 is6 isInvalid inp oracle hIp hmxE hmxR
    have haE : (tryResolve oracle.aQuery).1 = [] := by simp [hae, tryResolve]
    refine ⟨?_, ?_, ?_⟩
    · intro hc h6
      have haR : isRecoverableError (tryResolve oracle.aQuery).2 = true := by
        rw [hae]
        exact isRecoverableError_of_code e hc
      have hA := resolveMXFallbackA_fallthrough isInvalid inp oracle haE haR h6
      rw [hmain, hA]
      exact List.mem_cons_of_mem _ (List.mem_cons_of_mem _
        (List.mem_of_mem_head? (resolveMXFallbackAAAA_log isInvalid inp oracle)))
    · intro hc h6
      have hA := resolveMXFallbackA_rec_ignore6 isInvalid inp oracle e hae
        (isRecoverableError_of_code e hc) h6
      rw [hmain, hA]
      exact ⟨rfl, rfl, createDnsError_final_not_temporary inp.decodedDomain⟩
    · intro h1 h2
      have hA := resolveMXFallbackA_err isInvalid inp oracle e hae
        (isRecoverableError_of_other_code e h1 h2)
      rw [hmain, hA]
      exact ⟨rfl, createDnsError (some e) inp.decodedDomain none, rfl,
        (createDnsError_other e inp.decodedDomain h1 h2).1,
        (createDnsError_other e inp.decodedDomain h1 h2).2⟩
  · intro hmxE hmxR haE haR h6 e hae
    have hmain := resolveMXModel_fallthrough_mx is4 is6 isInvalid inp oracle hIp hmxE hmxR
    have hA := resolveMXFallbackA_fallthrough isInvalid inp oracle haE haR h6
    refine ⟨?_, ?_⟩
    · intro hc
      have hAAAA := resolveMXFallbackAAAA_rec isInvalid inp oracle e hae
        (isRecoverableError_of_code e hc)
      rw [hmain, hA, hAAAA]
      exact ⟨rfl, createDnsError_final_not_temporary inp.decodedDomain⟩
    · intro h1 h2
      have hAAAA := resolveMXFallbackAAAA_err isInvalid inp oracle e hae
        (isRecoverableError_of_other_code e h1 h2)
      rw [hmain, hA, hAAAA]
      exact ⟨rfl, createDnsError (some e) inp.decodedDomain none, rfl,
        (createDnsError_other e inp.decodedDomain h1 h2).1,
        (createDnsError_other e inp.decodedDomain h1 h2).2⟩

/-- Witness for C3 (amended) at concrete inputs: an `ESERVFAIL` MX answer is
fatal with no A fallback; an `ENODATA` MX answer reaches the A stage; an
`ESERVFAIL` A answer is fatal with no AAAA lookup; an `ENOTFOUND` A answer
reaches the AAAA stage; an `ESERVFAIL` AAAA answer is fatal and temporary;
an `ENODATA` AAAA answer ends in the non-temporary "No MX server found"
rejection. -/
theorem resolveMX_dns_error_routing_witness :
    "A" ∈ (resolveMXModel (fun _ => false) (fun _ => false) (fun _ => none)
      { domain := "example.com", decodedDomain := "example.com" }
      { mxQuery := .error { message := "queryMx ENODATA example.com", code := some "ENODATA" } }).2 ∧
    ((resolveMXModel (fun _ => false) (fun _ => false) (fun _ => none)
      { domain := "example.com", decodedDomain := "example.com" }
      { mxQuery := .error { message := "queryMx ESERVFAIL example.com", code := some "ESERVFAIL" } }).2
      = ["MX"] ∧
    ∃ e2, (resolveMXModel (fun _ => false) (fun _ => false) (fun _ => none)
      { domain := "example.com", decodedDomain := "example.com" }
      { mxQuery := .error { message := "queryMx ESERVFAIL example.com", code := some "ESERVFAIL" } }).1
      = .error e2 ∧ e2.category = some "dns" ∧ e2.temporary = some true) ∧
    "AAAA" ∈ (resolveMXModel (fun _ => false) (fun _ => false) (fun _ => none)
      { domain := "example.com", decodedDomain := "example.com" }
      { mxQuery := .ok none,
        aQuery := .error { message := "queryA ENOTFOUND example.com", code := some "ENOTFOUND" } }).2 ∧
    ((resolveMXModel (fun _ => false) (fun _ => false) (fun _ => none)
      { domain := "example.com", decodedDomain := "example.com" }
      { mxQuery := .ok none,
        aQuery := .error { message := "queryA ESERVFAIL example.com", code := some "ESERVFAIL" } }).2
      = ["MX", "A"] ∧
    ∃ e2, (resolveMXModel (fun _ => false) (fun _ => false) (fun _ => none)
      { domain := "example.com", decodedDomain := "example.com" }
      { mxQuery := .ok none,
        aQuery := .error { message := "queryA ESERVFAIL example.com", code := some "ESERVFAIL" } }).1
      = .error e2 ∧ e2.category = some "dns" ∧ e2.temporary = some true) ∧
    ((resolveMXModel (fun _ => false) (fun _ => false) (fun _ => none)
      { domain := "example.com", decodedDomain := "example.com" }
      { mxQuery := .ok none, aQuery := .ok none,
        aaaaQuery := .error { message := "queryAaaa ESERVFAIL example.com", code := some "ESERVFAIL" } }).2
      = ["MX", "A", "AAAA"] ∧
    ∃ e2, (resolveMXModel (fun _ => false) (fun _ => false) (fun _ => none)
      { domain := "example.com", decodedDomain := "example.com" }
      { mxQuery := .ok none, aQuery := .ok none,
        aaaaQuery := .error { message := "queryAaaa ESERVFAIL example.com", code := some "ESERVFAIL" } }).1
      = .error e2 ∧ e2.category = some "dns" ∧ e2.temporary = some true) ∧
    ((resolveMXModel (fun _ => false) (fun _ => false) (fun _ => none)
      { domain := "example.com", decodedDomain := "example.com" }
      { mxQuery := .ok none, aQuery := .ok none,
        aaaaQuery := .error { message := "queryAaaa ENODATA example.com", code := some "ENODATA" } }).1
      = .error (createDnsError none "example.com" (some "No MX server found")) ∧
    (createDnsError none "example.com" (some "No MX server found")).temporary = none) := by
  have hmx1 := (resolveMX_dns_error_routing (fun _ => false) (fun _ => false) (fun _ => none)
    { domain := "example.com", decodedDomain := "example.com" }
    { mxQuery := .error { message := "queryMx ENODATA example.com", code := some "ENODATA" } }
    rfl).1 { message := "queryMx ENODATA example.com", code := some "ENODATA" } rfl
  have hmx2 := (resolveMX_dns_error_routing (fun _ => false) (fun _ => false) (fun _ => none)
    { domain := "example.com", decodedDomain := "example.com" }
    { mxQuery := .error { message := "queryMx ESERVFAIL example.com", code := some "ESERVFAIL" } }
    rfl).1 { message := "queryMx ESERVFAIL example.com", code := some "ESERVFAIL" } rfl
  have ha1 := ((resolveMX_dns_error_routing (fun _ => false) (fun _ => false) (fun _ => none)
    { domain := "example.com", decodedDomain := "example.com" }
    { mxQuery := .ok none,
      aQuery := .error { message := "queryA ENOTFOUND example.com", code := some "ENOTFOUND" } }
    rfl).2.1 rfl rfl
    { message := "queryA ENOTFOUND example.com", code := some "ENOTFOUND" } rfl).1
  have ha2 := ((resolveMX_dns_error_routing (fun _ => false) (fun _ => false) (fun _ => none)
    { domain := "example.com", decodedDomain := "example.com" }
    { mxQuery := .ok none,
      aQuery := .error { message := "queryA ESERVFAIL example.com", code := some "ESERVFAIL" } }
    rfl).2.1 rfl rfl
    { message := "queryA ESERVFAIL example.com", code := some "ESERVFAIL" } rfl).2.2
  have haaaa2 := ((resolveMX_dns_error_routing (fun _ => false) (fun _ => false) (fun _ => none)
    { domain := "example.com", decodedDomain := "example.com" }
    { mxQuery := .ok none, aQuery := .ok none,
      aaaaQuery := .error { message := "queryAaaa ESERVFAIL example.com", code := some "ESERVFAIL" } }
    rfl).2.2 rfl rfl rfl rfl rfl
    { message := "queryAaaa ESERVFAIL example.com", code := some "ESERVFAIL" } rfl).2
  have haaaa1 := ((resolveMX_dns_error_routing (fun _ => false) (fun _ => false) (fun _ => none)
    { domain := "example.com", decodedDomain := "example.com" }
    { mxQuery := .ok none, aQuery := .ok none,
      aaaaQuery := .error { message := "queryAaaa ENODATA example.com", code := some "ENODATA" } }
    rfl).2.2 rfl rfl rfl rfl rfl
    { message := "queryAaaa ENODATA example.com", code := some "ENODATA" } rfl).1
  exact ⟨hmx1.1 (Or.inl rfl),
    ⟨(hmx2.2 (by decide) (by decide)).1, (hmx2.2 (by decide) (by decide)).2⟩,
    ha1 (Or.inr rfl) rfl,
    ⟨(ha2 (by decide) (by decide)).1, (ha2 (by decide) (by decide)).2⟩,
    ⟨(haaaa2 (by decide) (by decide)).1, (haaaa2 (by decide) (by decide)).2⟩,
    haaaa1 (Or.inl rfl)⟩

/-- Ascending priority order on MX entries. -/
def entryLE (a b : MxEntry) : Prop := a.priority ≤ b.priority

/-- Every entry produced by the A fallback has priority 0, `mx = false` and
the domain as its exchange. -/
theorem mapFallbackA_entries (isInvalid : String → Option String) (dd exch : String) :
    ∀ ips st m, m ∈ (mapFallbackA isInvalid dd exch st ips).2 →
      m.priority = 0 ∧ m.mx = some false ∧ m.exchange = some exch := by
  intro ips
  induction ips with
  | nil =>
      intro st m hm
      simp [mapFallbackA] at hm
  | cons ip rest ih =>
      intro st m hm
      simp only [mapFallbackA, List.mem_cons] at hm
      rcases hm with rfl | hm
      · exact ⟨rfl, rfl, rfl⟩
      · exact ih _ m hm

/-- Every entry produced by the AAAA fallback has priority 0, `mx = false`
and the domain as its exchange. -/
theorem mapFallbackAAAA_entries (isInvalid : String → Option String) (dd exch : String) :
    ∀ ips st m, m ∈ (mapFallbackAAAA isInvalid dd exch st ips).2 →
      m.priority = 0 ∧ m.mx = some false ∧ m.exchange = some exch := by
  intro ips
  induction ips with
  | nil =>
      intro st m hm
      simp [mapFallbackAAAA] at hm
  | cons ip rest ih =>
      intro st m hm
      simp only [mapFallbackAAAA, List.mem_cons] at hm
      rcases hm with rfl | hm
      · exact ⟨rfl, rfl, rfl⟩
      · exact ih _ m hm

/-- Fallback entry properties give the C5 invariants. -/
theorem fallback_entries_invariants (dd : String) (hdom : dd ≠ "") (entries : List MxEntry)
    (hprops : ∀ m ∈ entries, m.priority = 0 ∧ m.mx = some false ∧ m.exchange = some dd) :
    List.Sorted entryLE entries ∧ (∀ m ∈ entries, m.exchange.getD "" ≠ "") ∧
    (∀ m ∈ entries, m.mx = some false ∧ m.priority = 0) := by
  refine ⟨?_, ?_, ?_⟩
  · exact List.pairwise_of_forall_mem_list fun a ha b hb => by
      show a.priority ≤ b.priority
      rw [(hprops a ha).1, (hprops b hb).1]
  · intro m hm
    rw [(hprops m hm).2.2]
    simpa using hdom
  · intro m hm
    exact ⟨(hprops m hm).2.1, (hprops m hm).1⟩

/-- If the AAAA fallback stage succeeds, its entries satisfy the fallback
invariants. -/
theorem resolveMXFallbackAAAA_ok (isInvalid : String → Option String)
    (inp : MxResolveInput) (oracle : DnsOracle) (entries : List MxEntry)
    (hdom : inp.decodedDomain ≠ "")
    (hres : (resolveMXFallbackAAAA isInvalid inp oracle).1 = .ok entries) :
    List.Sorted entryLE entries ∧ (∀ m ∈ entries, m.exchange.getD "" ≠ "") ∧
    (∀ m ∈ entries, m.mx = some false ∧ m.priority = 0) := by
  simp only [resolveMXFallbackAAAA] at hres
  refine fallback_entries_invariants inp.decodedDomain hdom entries ?_
  split at hres
  · split at hres
    · split at hres
      · cases hres
      · rw [Except.ok.injEq] at hres
        subst hres
        exact fun m hm => mapFallbackAAAA_entries isInvalid inp.domain inp.decodedDomain _ _ m hm
    · rw [Except.ok.injEq] at hres
      subst hres
      exact fun m hm => mapFallbackAAAA_entries isInvalid inp.domain inp.decodedDomain _ _ m hm
  · split at hres
    · cases hres
    · cases hres

/-- If the A fallback stage succeeds, its entries satisfy the fallback
invariants. -/
theorem resolveMXFallbackA_ok (isInvalid : String → Option String)
    (inp : MxResolveInput) (oracle : DnsOracle) (entries : List MxEntry)
    (hdom : inp.decodedDomain ≠ "")
    (hres : (resolveMXFallbackA isInvalid inp oracle).1 = .ok entries) :
    List.Sorted entryLE entries ∧ (∀ m ∈ entries, m.exchange.getD "" ≠ "") ∧
    (∀ m ∈ entries, m.mx = some false ∧ m.priority = 0) := by
  simp only [resolveMXFallbackA] at hres
  split at hres
  · refine fallback_entries_invariants inp.decodedDomain hdom entries ?_
    split at hres
    · split at hres
      · cases hres
      · rw [Except.ok.injEq] at hres
        subst hres
        exact fun m hm => mapFallbackA_entries isInvalid inp.domain inp.decodedDomain _ _ m hm
    · rw [Except.ok.injEq] at hres
      subst hres
      exact fun m hm => mapFallbackA_entries isInvalid inp.domain inp.decodedDomain _ _ m hm
  · split at hres
    · cases hres
    · split at hres
      · exact resolveMXFallbackAAAA_ok isInvalid inp oracle entries hdom hres
      · cases hres

/-- Mapping a sorted record list through the MX-entry constructor keeps the
priority order. -/
theorem sorted_map_mx_entries (l : List MxRecord) :
    List.Sorted entryLE ((List.insertionSort mxRecordLE l).map fun r =>
      ({ exchange := some r.exchange, priority := r.priority, mx := some true,
         A := [], AAAA := [] } : MxEntry)) := by
  have hs := List.sorted_insertionSort mxRecordLE l
  unfold List.Sorted at hs ⊢
  rw [List.pairwise_map]
  exact hs.imp fun h => h

/-- C5: every successful MX-resolver output on a domain target is sorted by
ascending priority; entries built from MX records carry `mx = true`, entries
synthesized from the A/AAAA fallback carry `priority = 0` and `mx = false`;
and (for a non-empty domain whose MX answers carry non-empty exchanges)
every entry has a non-empty exchange. -/
theorem resolveMX_output_invariants (is4 is6 : String → Bool)
    (isInvalid : String → Option String) (inp : MxResolveInput) (oracle : DnsOracle)
    (entries : List MxEntry)
    (hIp : inp.isIp = false) (hdom : inp.decodedDomain ≠ "")
    (hmx : ∀ l r, oracle.mxQuery = .ok (some l) → r ∈ l → r.exchange ≠ "")
    (hres : (resolveMXModel is4 is6 isInvalid inp oracle).1 = .ok entries) :
    List.Sorted entryLE entries ∧
    (∀ m ∈ entries, m.exchange.getD "" ≠ "") ∧
    ((∀ m ∈ entries, m.mx = some true) ∨
      (∀ m ∈ entries, m.mx = some false ∧ m.priority = 0)) := by
  simp only [resolveMXModel, hIp, Bool.false_eq_true, if_false] at hres
  split at hres
  · rename_i hne
    rw [Except.ok.injEq] at hres
    subst hres
    refine ⟨sorted_map_mx_entries _, ?_, Or.inl ?_⟩
    · intro m hm
      rw [List.mem_map] at hm
      obtain ⟨r, hr, rfl⟩ := hm
      rw [List.mem_insertionSort] at hr
      have : r.exchange ≠ "" := by
        cases hq : oracle.mxQuery with
        | error e => rw [hq] at hr; simp [tryResolve] at hr
        | ok o =>
            cases o with
            | none => rw [hq] at hr; simp [tryResolve] at hr
            | some l =>
                apply hmx l r hq
                rw [hq] at hr
                simpa [tryResolve] using hr
      simpa using this
    · intro m hm
      rw [List.mem_map] at hm
      obtain ⟨r, _, rfl⟩ := hm
      rfl
  · split at hres
    · cases hres
    · have := resolveMXFallbackA_ok isInvalid inp oracle entries hdom hres
      exact ⟨this.1, this.2.1, Or.inr this.2.2⟩

/-- Witness for C5: a concrete oracle with two unsorted MX records, and a
concrete A-only oracle. -/
theorem resolveMX_output_invariants_witness :
    (∃ entries,
      (resolveMXModel (fun _ => false) (fun _ => false) (fun _ => none)
        { domain := "example.com", decodedDomain := "example.com" }
        { mxQuery := .ok (some [{ exchange := "backup.example.com", priority := 20 },
                                { exchange := "primary.example.com", priority := 10 }]) }).1
        = .ok entries ∧
      List.Sorted entryLE entries ∧ (∀ m ∈ entries, m.exchange.getD "" ≠ "") ∧
      ((∀ m ∈ entries, m.mx = some true) ∨
        (∀ m ∈ entries, m.mx = some false ∧ m.priority = 0))) ∧
    (∃ entries,
      (resolveMXModel (fun _ => false) (fun _ => false) (fun _ => none)
        { domain := "example.com", decodedDomain := "example.com" }
        { mxQuery := .ok none, aQuery := .ok (some ["192.0.2.1"]) }).1
        = .ok entries ∧
      List.Sorted entryLE entries ∧ (∀ m ∈ entries, m.exchange.getD "" ≠ "") ∧
      ((∀ m ∈ entries, m.mx = some true) ∨
        (∀ m ∈ entries, m.mx = some false ∧ m.priority = 0))) := by
  constructor
  · refine ⟨_, rfl, ?_⟩
    refine resolveMX_output_invariants (fun _ => false) (fun _ => false) (fun _ => none)
      { domain := "example.com", decodedDomain := "example.com" }
      { mxQuery := .ok (some [{ exchange := "backup.example.com", priority := 20 },
                              { exchange := "primary.example.com", priority := 10 }]) }
      _ rfl (by decide) ?_ rfl
    intro l r hq hr
    rw [Except.ok.injEq, Option.some.injEq] at hq
    subst hq
    cases hr with
    | head => decide
    | tail _ hr2 =>
        cases hr2 with
        | head => decide
        | tail _ hr3 => cases hr3
  · refine ⟨_, rfl, ?_⟩
    refine resolveMX_output_invariants (fun _ => false) (fun _ => false) (fun _ => none)
      { domain := "example.com", decodedDomain := "example.com" }
      { mxQuery := .ok none, aQuery := .ok (some ["192.0.2.1"]) }
      _ rfl (by decide) ?_ rfl
    intro l r hq _
    simp at hq

/-- Setting the `port` field does not change the MTA-STS policy verdict. -/
theorem checkMtaStsPolicy_port_irrel (d : Delivery) (c : Candidate) (p : Option Int) :
    checkMtaStsPolicyModel d { c with port := p } = checkMtaStsPolicyModel d c := rfl

/-- Setting the `port` field does not change the DANE lookup gate. -/
theorem daneLookupGate_port_irrel (d : Delivery) (c : Candidate) (p : Option Int) :
    daneLookupGate d { c with port := p } = daneLookupGate d c := rfl

/-- When the gates pass, a hook error makes `tryConnect` return a fatal
failure carrying exactly that error, with no socket opened and nothing
emitted to `connectError`. -/
theorem tryConnect_hook_fail (is4 is6 : String → Bool) (d : Delivery) (st : LocalState)
    (c : Candidate) (e : JsError) (t : TcpOutcome)
    (hpol : checkMtaStsPolicyModel d c = none) (hdane : daneLookupGate d c = false) :
    (tryConnectModel is4 is6 d st c { hook := .fail e, tcp := t }).1
      = { success := false, fatal := true, error := some e } := by
  have hpol' : checkMtaStsPolicyModel d { c with port := some (d.port.getD 25) } = none := by
    rw [checkMtaStsPolicy_port_irrel]
    exact hpol
  have hdane' : daneLookupGate d { c with port := some (d.port.getD 25) } = false := by
    rw [daneLookupGate_port_irrel]
    exact hdane
  simp [tryConnectModel, hpol', hdane']

/-- When the gates pass and the hook provides a socket, `tryConnect` succeeds
immediately with that socket and never invokes `net.connect`. -/
theorem tryConnect_hook_socket (is4 is6 : String → Bool) (d : Delivery) (st : LocalState)
    (c : Candidate) (s : Socket) (t : TcpOutcome)
    (hpol : checkMtaStsPolicyModel d c = none) (hdane : daneLookupGate d c = false) :
    ∃ mxres, (tryConnectModel is4 is6 d st c { hook := .done (some s), tcp := t }).1
        = { success := true, result := some mxres } ∧
      mxres.socket = some s := by
  have hpol' : checkMtaStsPolicyModel d { c with port := some (d.port.getD 25) } = none := by
    rw [checkMtaStsPolicy_port_irrel]
    exact hpol
  have hdane' : daneLookupGate d { c with port := some (d.port.getD 25) } = false := by
    rw [daneLookupGate_port_irrel]
    exact hdane
  simp only [tryConnectModel, hpol', hdane', Bool.false_eq_true, if_false]
  exact ⟨_, rfl, rfl⟩

/-- C6: in the try loop, a `connectHook` error is fatal — the whole attempt
fails with that error and no further candidate is tried; if the hook instead
sets `options.socket`, the attempt succeeds immediately with that socket and
no TCP connection is opened. -/
theorem connect_hook_semantics (is4 is6 : String → Bool) (d : Delivery) (st : LocalState)
    (c : Candidate) (rest : List Candidate) (exts : List HookTcp) (fe : Option JsError)
    (e : JsError) (s : Socket) (t t' : TcpOutcome)
    (hpol : checkMtaStsPolicyModel d c = none) (hdane : daneLookupGate d c = false) :
    tryNextMXModel is4 is6 d (c :: rest) ({ hook := .fail e, tcp := t } :: exts) st fe
      = (.error e, [c.host]) ∧
    (∃ mxres,
      tryNextMXModel is4 is6 d (c :: rest) ({ hook := .done (some s), tcp := t' } :: exts) st fe
        = (.ok mxres, [c.host]) ∧ mxres.socket = some s) ∧
    (tryConnectModel is4 is6 d st c { hook := .done (some s), tcp := t' }).1.tcpAttempted
      = false := by
  have hfail := tryConnect_hook_fail is4 is6 d st c e t hpol hdane
  obtain ⟨mxres, hsock, hs⟩ := tryConnect_hook_socket is4 is6 d st c s t' hpol hdane
  refine ⟨?_, ⟨mxres, ?_, hs⟩, ?_⟩
  · simp [tryNextMXModel, hfail]
  · simp [tryNextMXModel, hsock]
  · rw [hsock]

/-- Witness for C6: one concrete candidate, a hook error and a hook-provided
socket. -/
theorem connect_hook_semantics_witness :
    tryNextMXModel (fun _ => false) (fun _ => false) { domain := "example.com" }
      [{ host := "192.0.2.1", hostname := some "mx.example.com", priority := 10 }]
      [{ hook := .fail { message := "proxy connection refused" }, tcp := .timeout }] {} none
      = (.error { message := "proxy connection refused" }, ["192.0.2.1"]) ∧
    (∃ mxres,
      tryNextMXModel (fun _ => false) (fun _ => false) { domain := "example.com" }
        [{ host := "192.0.2.1", hostname := some "mx.example.com", priority := 10 }]
        [{ hook := .done (some { sid := 42 }), tcp := .timeout }] {} none
        = (.ok mxres, ["192.0.2.1"]) ∧ mxres.socket = some { sid := 42 }) ∧
    (tryConnectModel (fun _ => false) (fun _ => false) { domain := "example.com" } {}
      { host := "192.0.2.1", hostname := some "mx.example.com", priority := 10 }
      { hook := .done (some { sid := 42 }), tcp := .timeout }).1.tcpAttempted = false := by
  exact connect_hook_semantics (fun _ => false) (fun _ => false) { domain := "example.com" } {}
    { host := "192.0.2.1", hostname := some "mx.example.com", priority := 10 } [] []
    none { message := "proxy connection refused" } { sid := 42 } .timeout .timeout rfl rfl

/-- When the policy gate rejects, `tryConnect` returns a retryable `policy`
failure, emits it, and opens no socket. -/
theorem tryConnect_policy_reject (is4 is6 : String → Bool) (d : Delivery) (st : LocalState)
    (c : Candidate) (ext : HookTcp) (pm : PolicyMatch)
    (hpm : c.policyMatch = some pm) (hvalid : pm.valid = false)
    (htest : pm.testing.getD false = false) :
    ∃ err, (tryConnectModel is4 is6 d st c ext).1
        = { success := false, fatal := false, error := some err, emitted := [err] } ∧
      err.category = some "policy" := by
  have hcheck : checkMtaStsPolicyModel d { c with port := some (d.port.getD 25) }
      = some (policyRejectError d { c with port := some (d.port.getD 25) }) := by
    rw [checkMtaStsPolicy_port_irrel]
    unfold checkMtaStsPolicyModel
    rw [hpm]
    simp [hvalid, htest, policyRejectError]
  simp only [tryConnectModel, hcheck]
  exact ⟨_, rfl, by simp [policyRejectError]⟩

/-- C7: a candidate whose `policyMatch` has `valid = false` and
`testing = false` is reported to `connectError`, marked as a retryable
(non-fatal) failure of category `policy`, and the try loop moves to the next
candidate without opening a socket; with `valid = true` or `testing = true`
the policy gate passes and connection proceeds. -/
theorem mta_sts_gate_semantics (is4 is6 : String → Bool) (d : Delivery) (st : LocalState)
    (c : Candidate) (rest : List Candidate) (ext : HookTcp) (exts : List HookTcp)
    (fe : Option JsError) (pm : PolicyMatch) (hpm : c.policyMatch = some pm) :
    (pm.valid = false → pm.testing.getD false = false →
      ∃ err, (tryConnectModel is4 is6 d st c ext).1
          = { success := false, fatal := false, error := some err, emitted := [err] } ∧
        err.category = some "policy" ∧
        tryNextMXModel is4 is6 d (c :: rest) (ext :: exts) st fe
          = ((tryNextMXModel is4 is6 d rest exts (tryConnectModel is4 is6 d st c ext).2
                (match fe with | some e0 => some e0 | none => some err)).1,
             c.host :: (tryNextMXModel is4 is6 d rest exts
                (tryConnectModel is4 is6 d st c ext).2
                (match fe with | some e0 => some e0 | none => some err)).2)) ∧
    ((pm.valid = true ∨ pm.testing = some true) → checkMtaStsPolicyModel d c = none) := by
  constructor
  · intro hvalid htest
    obtain ⟨err, hout, hcat⟩ :=
      tryConnect_policy_reject is4 is6 d st c ext pm hpm hvalid htest
    refine ⟨err, hout, hcat, ?_⟩
    simp [tryNextMXModel, hout]
  · intro hpass
    unfold checkMtaStsPolicyModel
    rw [hpm]
    rcases hpass with h | h <;> simp [h]

/-- Witness for C7: an enforced invalid policy match on a concrete candidate,
and a valid one that passes the gate. -/
theorem mta_sts_gate_semantics_witness :
    (∃ err, (tryConnectModel (fun _ => false) (fun _ => false) { domain := "example.com" } {}
        { host := "192.0.2.1", hostname := some "mx.example.com", priority := 10,
          policyMatch := some { valid := false, testing := some false, mode := some "enforce" } }
        {}).1
        = { success := false, fatal := false, error := some err, emitted := [err] } ∧
      err.category = some "policy") ∧
    checkMtaStsPolicyModel { domain := "example.com" }
      { host := "192.0.2.1", hostname := some "mx.example.com", priority := 10,
        policyMatch := some { valid := true, testing := some false, mode := some "enforce" } }
      = none := by
  constructor
  · obtain ⟨err, h1, h2, _⟩ := (mta_sts_gate_semantics (fun _ => false) (fun _ => false)
      { domain := "example.com" } {}
      { host := "192.0.2.1", hostname := some "mx.example.com", priority := 10,
        policyMatch := some { valid := false, testing := some false, mode := some "enforce" } }
      [] {} [] none
      { valid := false, testing := some false, mode := some "enforce" } rfl).1 rfl rfl
    exact ⟨err, h1, h2⟩
  · exact (mta_sts_gate_semantics (fun _ => false) (fun _ => false)
      { domain := "example.com" } {}
      { host := "192.0.2.1", hostname := some "mx.example.com", priority := 10,
        policyMatch := some { valid := true, testing := some false, mode := some "enforce" } }
      [] {} [] none
      { valid := true, testing := some false, mode := some "enforce" } rfl).2 (Or.inl rfl)

/-- Ascending priority order on flattened candidates. -/
def candLE (a b : Candidate) : Prop := a.priority ≤ b.priority

instance : DecidableRel candLE :=
  fun a b => inferInstanceAs (Decidable (a.priority ≤ b.priority))

instance : IsTotal Candidate candLE := ⟨fun a b => Int.le_total a.priority b.priority⟩

instance : IsTrans Candidate candLE := ⟨fun _ _ _ h h' => le_trans h h'⟩

/-- `addFamily` only adds candidates built by `mk`, so it preserves any
property that holds of the state and of every `mk ip`. -/
theorem addFamily_forall (P : Candidate → Prop) (mk : String → Candidate)
    (hmk : ∀ ip, P (mk ip)) :
    ∀ ips st, (∀ c ∈ st.1, P c) → ∀ c ∈ (addFamily mk st ips).1, P c := by
  intro ips
  induction ips with
  | nil => intro st h c hc; exact h c hc
  | cons ip rest ih =>
      intro st h c hc
      simp only [addFamily] at hc
      split at hc
      · exact ih st h c hc
      · refine ih _ ?_ c hc
        intro c' hc'
        rcases List.mem_append.mp hc' with h1 | h1
        · exact h c' h1
        · rw [List.mem_singleton] at h1
          subst h1
          exact hmk ip

/-- `buildLoop` preserves any property of the state that holds of every
candidate the two per-family constructors can build. -/
theorem buildLoop_forall (P : Candidate → Prop)
    (hbase : ∀ (m : MxEntry) (ip : String),
      P { baseCandidate m with ipv4 := some true, host := ip } ∧
      P { baseCandidate m with ipv6 := some true, host := ip }) :
    ∀ ms st, (∀ c ∈ st.1, P c) → ∀ c ∈ (buildLoop st ms).1, P c := by
  intro ms
  induction ms with
  | nil => intro st h c hc; exact h c hc
  | cons m rest ih =>
      intro st h c hc
      simp only [buildLoop] at hc
      refine ih _ ?_ c hc
      refine addFamily_forall P _ (fun ip => (hbase m ip).2) _ _ ?_
      exact addFamily_forall P _ (fun ip => (hbase m ip).1) _ _ h

/-- No flattened candidate carries `ipv6 = false`: the flag is either absent
(IPv4 candidates) or `true` (IPv6 candidates). -/
theorem buildMxHostList_famOk (d : Delivery) :
    ∀ c ∈ (buildMxHostList d).1, c.ipv6 ≠ some false := by
  have hall : ∀ c ∈ (buildLoop ([], []) d.mx).1, c.ipv6 ≠ some false := by
    refine buildLoop_forall _ ?_ d.mx ([], []) (by simp)
    intro m ip
    constructor
    · simp [baseCandidate]
    · simp [baseCandidate]
  intro c hc
  simp only [buildMxHostList] at hc
  split at hc
  · exact hall c (List.mem_of_mem_filter hc)
  · exact hall c hc

/-- Invariant tying the flattened hosts to the seen-IP set: the host strings
are duplicate-free and all recorded in the seen set. -/
def hostsSeenInv (st : List Candidate × List String) : Prop :=
  (st.1.map Candidate.host).Nodup ∧ ∀ c ∈ st.1, c.host ∈ st.2

/-- One family loop preserves `hostsSeenInv`. -/
theorem addFamily_inv (mk : String → Candidate) (hmk : ∀ ip, (mk ip).host = ip) :
    ∀ ips st, hostsSeenInv st → hostsSeenInv (addFamily mk st ips) := by
  intro ips
  induction ips with
  | nil => intro st h; exact h
  | cons ip rest ih =>
      intro st h
      simp only [addFamily]
      split
      · exact ih st h
      · rename_i hnotin
        have hipnot : ip ∉ st.2 := by
          intro hmem
          exact hnotin (List.elem_eq_true_of_mem hmem)
        refine ih _ ⟨?_, ?_⟩
        · rw [List.map_append, List.map_singleton, hmk, List.nodup_append]
          refine ⟨h.1, List.nodup_singleton _, ?_⟩
          intro x hx hx2
          rw [List.mem_singleton] at hx2
          subst hx2
          obtain ⟨c, hc, hceq⟩ := List.mem_map.mp hx
          exact hipnot (hceq ▸ h.2 c hc)
        · intro c hc
          rcases List.mem_append.mp hc with h1 | h1
          · exact List.mem_append.mpr (Or.inl (h.2 c h1))
          · rw [List.mem_singleton] at h1
            subst h1
            rw [hmk]
            exact List.mem_append.mpr (Or.inr (List.mem_singleton.mpr rfl))

/-- The entry loop preserves `hostsSeenInv`. -/
theorem buildLoop_inv : ∀ ms st, hostsSeenInv st → hostsSeenInv (buildLoop st ms) := by
  intro ms
  induction ms with
  | nil => intro st h; exact h
  | cons m rest ih =>
      intro st h
      simp only [buildLoop]
      refine ih _ ?_
      exact addFamily_inv _ (fun _ => rfl) _ _ (addFamily_inv _ (fun _ => rfl) _ _ h)

/-- The flattened host list contains no duplicate IP strings. -/
theorem buildMxHostList_nodup (d : Delivery) :
    ((buildMxHostList d).1.map Candidate.host).Nodup := by
  have hloop : hostsSeenInv (buildLoop ([], []) d.mx) :=
    buildLoop_inv d.mx ([], []) ⟨List.nodup_nil, by simp⟩
  simp only [buildMxHostList]
  split
  · exact hloop.1.sublist ((List.filter_sublist _).map _)
  · exact hloop.1

/-- On candidates whose `ipv6` flag is never `false`, the JS comparator
compares exactly like ascending priority: equal priorities always yield an
effective `0` (the `preferIPv6` tie-break is NaN or `1 - 1`). -/
theorem sortCompareVal_le_iff (p : Bool) (a b : Candidate)
    (ha : a.ipv6 ≠ some false) (hb : b.ipv6 ≠ some false) :
    (sortCompareVal p a b ≤ 0 ↔ a.priority ≤ b.priority) := by
  unfold sortCompareVal mxCompareRaw
  by_cases hpr : a.priority - b.priority = 0
  · have heq : a.priority = b.priority := by omega
    rw [if_neg (by omega)]
    have ta : jsToNum a.ipv6 = some 1 ∨ jsToNum a.ipv6 = none := by
      cases h : a.ipv6 with
      | none => exact Or.inr rfl
      | some v =>
          cases v with
          | false => exact absurd h ha
          | true => exact Or.inl rfl
    have tb : jsToNum b.ipv6 = some 1 ∨ jsToNum b.ipv6 = none := by
      cases h : b.ipv6 with
      | none => exact Or.inr rfl
      | some v =>
          cases v with
          | false => exact absurd h hb
          | true => exact Or.inl rfl
    cases p with
    | false => simp [heq]
    | true =>
        have hval : (jsSubNum (jsToNum b.ipv6) (jsToNum a.ipv6)).getD 0 = 0 := by
          rcases ta with h1 | h1 <;> rcases tb with h2 | h2 <;> simp [jsSubNum, h1, h2]
        simp only [if_true]
        rw [hval]
        simp [heq]
  · rw [if_pos hpr]
    simp only [Option.getD_some]
    omega

/-- `orderedInsert` only depends on the relation's verdicts on the inserted
element versus the list members. -/
theorem orderedInsert_rel_congr {α : Type} (r s : α → α → Prop)
    [DecidableRel r] [DecidableRel s] (a : α) :
    ∀ l, (∀ b ∈ l, (r a b ↔ s a b)) →
      List.orderedInsert r a l = List.orderedInsert s a l := by
  intro l
  induction l with
  | nil => intro _; rfl
  | cons b t ih =>
      intro h
      simp only [List.orderedInsert]
      by_cases hr : r a b
      · rw [if_pos hr, if_pos ((h b (List.mem_cons_self b t)).mp hr)]
      · rw [if_neg hr, if_neg (fun hs2 => hr ((h b (List.mem_cons_self b t)).mpr hs2)),
          ih (fun c hc => h c (List.mem_cons_of_mem b hc))]

/-- `insertionSort` only depends on the relation's verdicts on pairs of list
elements. -/
theorem insertionSort_rel_congr {α : Type} (r s : α → α → Prop)
    [DecidableRel r] [DecidableRel s] :
    ∀ l : List α, (∀ a ∈ l, ∀ b ∈ l, (r a b ↔ s a b)) →
      List.insertionSort r l = List.insertionSort s l := by
  intro l
  induction l with
  | nil => intro _; rfl
  | cons a t ih =>
      intro h
      simp only [List.insertionSort]
      rw [ih (fun x hx y hy => h x (List.mem_cons_of_mem _ hx) y (List.mem_cons_of_mem _ hy))]
      exact orderedInsert_rel_congr r s a _ fun b hb =>
        h a (List.mem_cons_self _ _) b
          (List.mem_cons_of_mem _ ((List.mem_insertionSort s).mp hb))

/-- On any list `buildMxHostList` can produce, the JS sort (with or without
`preferIPv6`) is the stable insertion sort by ascending priority. -/
theorem jsSortMxHosts_eq_insertionSort (p : Bool) (l : List Candidate)
    (hl : ∀ c ∈ l, c.ipv6 ≠ some false) :
    jsSortMxHosts p l = List.insertionSort candLE l := by
  unfold jsSortMxHosts
  refine insertionSort_rel_congr _ _ l ?_
  intro a ha b hb
  exact sortCompareVal_le_iff p a b (hl a ha) (hl b hb)

/-- The JS sort output is sorted by ascending priority. -/
theorem jsSortMxHosts_sorted (p : Bool) (l : List Candidate)
    (hl : ∀ c ∈ l, c.ipv6 ≠ some false) :
    List.Sorted candLE (jsSortMxHosts p l) := by
  rw [jsSortMxHosts_eq_insertionSort p l hl]
  exact List.sorted_insertionSort candLE l

/-- The candidate list of `getConnection` has no duplicate IP strings. -/
theorem getConnectionCandidates_nodup (d : Delivery) :
    ((getConnectionCandidates d).1.map Candidate.host).Nodup := by
  have h0 := buildMxHostList_nodup d
  have hperm : List.Perm (jsSortMxHosts d.preferIPv6 (buildMxHostList d).1)
      (buildMxHostList d).1 := List.perm_insertionSort _ _
  have h1 : ((jsSortMxHosts d.preferIPv6 (buildMxHostList d).1).map Candidate.host).Nodup :=
    ((hperm.map Candidate.host).nodup_iff).mpr h0
  simp only [getConnectionCandidates]
  split
  · exact h1.sublist ((List.take_sublist _ _).map _)
  · exact h1

/-- The candidate list of `getConnection` is sorted by ascending priority. -/
theorem getConnectionCandidates_sorted (d : Delivery) :
    List.Sorted candLE (getConnectionCandidates d).1 := by
  have hs := jsSortMxHosts_sorted d.preferIPv6 (buildMxHostList d).1 (buildMxHostList_famOk d)
  simp only [getConnectionCandidates]
  split
  · exact List.Pairwise.sublist (List.take_sublist _ _) hs
  · exact hs

/-- The candidate list of `getConnection` is capped at 20. -/
theorem getConnectionCandidates_length (d : Delivery) :
    (getConnectionCandidates d).1.length ≤ 20 := by
  simp only [getConnectionCandidates]
  split
  · rw [List.length_take]
    simp [MAX_MX_HOSTS]
  · rename_i h
    simp only [MAX_MX_HOSTS] at h
    omega

/-- The try loop never attempts more hosts than the list it is given. -/
theorem tryNextMX_attempts_le (is4 is6 : String → Bool) (d : Delivery) :
    ∀ hosts exts st fe,
      (tryNextMXModel is4 is6 d hosts exts st fe).2.length ≤ hosts.length := by
  intro hosts
  induction hosts with
  | nil => intro exts st fe; simp [tryNextMXModel]
  | cons c rest ih =>
      intro exts st fe
      simp only [tryNextMXModel]
      split
      · simp
      · split
        · simp
        · simpa using Nat.succ_le_succ (ih exts.tail _ _)

/-- A successful plan is exactly the capped candidate list. -/
theorem getConnectionPlan_ok (d : Delivery) (hosts : List Candidate)
    (h : getConnectionPlan d = .ok hosts) : hosts = (getConnectionCandidates d).1 := by
  simp only [getConnectionPlan] at h
  split at h
  · split at h <;> cases h
  · rw [Except.ok.injEq] at h
    exact h.symm

/-- `getConnection` attempts at most 20 candidates. -/
theorem getConnectionModel_attempts_le (is4 is6 : String → Bool) (d : Delivery)
    (exts : List HookTcp) :
    (getConnectionModel is4 is6 d exts).2.length ≤ 20 := by
  unfold getConnectionModel
  cases hplan : getConnectionPlan d with
  | error e => simp
  | ok hosts =>
      have hlen : hosts.length ≤ 20 := by
        rw [getConnectionPlan_ok d hosts hplan]
        exact getConnectionCandidates_length d
      exact (tryNextMX_attempts_le is4 is6 d hosts exts _ none).trans hlen

/-- C4: for every delivery, the flattened candidate list contains no two
candidates with the same IP string, is sorted by ascending priority, has
length at most 20, and the try loop attempts at most 20 candidates (so no
candidate beyond the 20th is ever attempted). -/
theorem candidate_list_invariants (is4 is6 : String → Bool) (d : Delivery)
    (exts : List HookTcp) :
    ((getConnectionCandidates d).1.map Candidate.host).Nodup ∧
    List.Sorted candLE (getConnectionCandidates d).1 ∧
    (getConnectionCandidates d).1.length ≤ 20 ∧
    (getConnectionModel is4 is6 d exts).2.length ≤ 20 :=
  ⟨getConnectionCandidates_nodup d, getConnectionCandidates_sorted d,
   getConnectionCandidates_length d, getConnectionModel_attempts_le is4 is6 d exts⟩

end MxConnect
